import Mathlib

/-!
# resizer: the `resizing` HTTP handler of `resizer.go`

A shallow embedding of the handler `resizing` (resizer.go, lines 51-183).

The handler talks to collaborators that live outside `resizer.go`
(the validator, the cache provider, the HTTP client, the image codecs, the
aspect calculator and the resize primitive).  They are taken as parameters
(`Collaborators`), each one a total function, and every call the handler makes
is appended, in program order, to a trace of `Event`s.  The provider's state is
threaded explicitly through `World.cache`; what the handler writes to the
response with `jpeg.Encode(w, ..)` or `png.Encode(w, ..)` is accumulated in
`World.body`.

Go `uint` values are `Nat` (the handler does no arithmetic on them), Go `int`
values are `Int`, a Go `error` is its message, `fmt.Sprintf("%d", n)` on a
`uint` is the decimal `toString n`, and byte buffers are `List Nat`.  The
requested `size` is a value local to the request.

`Img` is the type of the Go interface values `image.Image`, the nil value
included.  The one method the handler itself calls on such a value is
`finalImage.Bounds()` (line 128): `Collaborators.Bounds` is `none` on the nil
value, where Go panics, and the handler then ends with `Event.panic`.  What a
library function does with the image it is handed is outside the model: the
trace records that the call was made.  The two deferred `Body.Close()` calls
are not recorded.

The handler is cut at the points where the claims speak of a request that
"reaches" a step: `acquire` is lines 52-124 (everything up to the moment the
source image is in hand), `finish` is lines 126-181, and inside `finish` the
steps are `resizeImage`, `storeToCache` and `deliver`.
-/

namespace Resizer

/-! ## Data model (resizer.go, lines 26-44) -/

/-- Size, resizer.go lines 41-44. -/
structure Size where
  Width : Nat
  Height : Nat
deriving DecidableEq, Repr

/-- Placeholder, resizer.go lines 36-39 (the `*Size` pointer may be nil). -/
structure Placeholder where
  Name : String
  Size : Option Resizer.Size
deriving DecidableEq, Repr

/-- Configuration, resizer.go lines 26-34. -/
structure Configuration where
  Port : Nat
  ImageHost : String
  HostWhiteList : List String
  SizeLimits : Size
  Placeholders : List Placeholder
  Warmupsizes : List Size
  Cachethumbnails : Bool
deriving DecidableEq, Repr

/-- The two route variables of `/resize/{size}/{path:(.*)}` read through `mux.Vars(r)`. -/
structure Request where
  size : String
  path : String
deriving DecidableEq, Repr

/-- Go `image.Point`. -/
structure Point where
  X : Int
  Y : Int
deriving DecidableEq, Repr

/-- Go `image.Rectangle`, the result of `Image.Bounds()`. -/
structure Rectangle where
  Min : Point
  Max : Point
deriving DecidableEq, Repr

/-- Width of a rectangle, Go `Rectangle.Dx`. -/
def Rectangle.Dx (b : Rectangle) : Int := b.Max.X - b.Min.X

/-- Height of a rectangle, Go `Rectangle.Dy`. -/
def Rectangle.Dy (b : Rectangle) : Int := b.Max.Y - b.Min.Y

/-- The interpolation functions of `nfnt/resize`. -/
inductive InterpolationFunction where
  | NearestNeighbor
  | Bilinear
  | Bicubic
  | MitchellNetravali
  | Lanczos2
  | Lanczos3
deriving DecidableEq, Repr

/-- The part of `http.Response` the handler reads. -/
structure Response where
  StatusCode : Int
  Header : List (String × String)
  Body : List Nat
deriving DecidableEq, Repr

/-- The zero response `new(http.Response)` of line 78. -/
def newResponse : Response := { StatusCode := 0, Header := [], Body := [] }

/-- Go `Header.Get`: the value stored under the key, the empty string when there is none. -/
def HeaderGet (h : List (String × String)) (k : String) : String :=
  match h.lookup k with
  | some v => v
  | none => ""

/-- Where a `jpeg.Encode` call writes: the response writer `w` or a fresh `bytes.Buffer`. -/
inductive Target where
  | response
  | buffer
deriving DecidableEq, Repr

/-- One call made by the handler, or the runtime panic that ends it.  `Img` is the type of Go
`image.Image` values. -/
inductive Event (Img : Type) where
  | FormatError (err : String)
  | NotFound
  | Contains (key : String)
  | Get (key : String)
  | Set (key : String) (buf : List Nat)
  | Delete (key : String)
  | httpGet (url : String)
  | Decode (body : List Nat)
  | calculateAspectRatio (sizer : Size) (height : Int) (width : Int)
  | Resize (width : Nat) (height : Nat) (img : Img) (interp : InterpolationFunction)
  | jpegEncode (target : Target) (img : Img)
  | pngEncode (img : Img)
  | logDownloading
  | logDecodeError
  | logReadError (err : String)
  | logEncodeError
  | logHandled (contentType : String)
  | logCannotHandle (contentType : String)
  | FreeOSMemory
  | panic
deriving DecidableEq, Repr

/-- The cache provider behind `cacheProvider` (line 23), as operations on an explicit
provider state `σ`.  `Contains` is a probe that leaves the state alone; `Get` returns a
value together with an optional error, `Set` and `Delete` an optional error. -/
structure CacheProvider (σ Img : Type) where
  Contains : σ → String → Bool
  Get : σ → String → (Img × Option String) × σ
  Set : σ → String → List Nat → Option String × σ
  Delete : σ → String → Option String × σ

/-- The collaborators of `resizing` that are defined outside `resizer.go`.  `Bounds` is the
method call `finalImage.Bounds()`; it is `none` exactly on the nil interface value, on which
the call panics. -/
structure Collaborators (σ Img : Type) where
  GetImageSize : String → Configuration → Size
  CheckRequestNewSize : Configuration → Size → Option String
  ExtractIdFromUrl : String → String
  cacheProvider : CacheProvider σ Img
  httpGet : String → Except String Response
  Decode : List Nat → Except String Img
  Bounds : Img → Option Rectangle
  calculateAspectRatio : Size → Int → Int → Size
  Resize : Nat → Nat → Img → InterpolationFunction → Img
  jpegEncode : Img → List Nat × Option String
  pngEncode : Img → List Nat × Option String

/-- The state a request runs in: the provider state, the calls made so far and the bytes
written to the response body by the image encoders. -/
structure World (σ Img : Type) where
  cache : σ
  trace : List (Event Img)
  body : List Nat
deriving DecidableEq, Repr

variable {σ Img : Type}

/-- Record one call. -/
def World.emit (w : World σ Img) (e : Event Img) : World σ Img :=
  { w with trace := w.trace ++ [e] }

/-- Replace the provider state. -/
def World.setCache (w : World σ Img) (c : σ) : World σ Img :=
  { w with cache := c }

/-- Statement `jpeg.Encode(w, img, nil)`; the returned error is dropped (lines 71, 171, 174). -/
def World.jpegEncodeW (env : Collaborators σ Img) (w : World σ Img) (img : Img) : World σ Img :=
  { w with trace := w.trace ++ [Event.jpegEncode Target.response img],
           body := w.body ++ (env.jpegEncode img).1 }

/-- Statement `png.Encode(w, img)`; the returned error is dropped (line 168). -/
def World.pngEncodeW (env : Collaborators σ Img) (w : World σ Img) (img : Img) : World σ Img :=
  { w with trace := w.trace ++ [Event.pngEncode img],
           body := w.body ++ (env.pngEncode img).1 }

/-! ## The handler (resizer.go, lines 51-183) -/

/-- Line 67: `fmt.Sprintf("%d_%d_%s", size.Height, size.Width, imageId)`. -/
def resizedKey (size : Size) (imageId : String) : String :=
  toString size.Height ++ "_" ++ toString size.Width ++ "_" ++ imageId

/-- Line 76: `fmt.Sprintf("original_%s", imageId)`. -/
def originalKey (imageId : String) : String :=
  "original_" ++ imageId

/-- Lines 69-73.  `Except.error` carries the world at an early `return`.  The `&&` of line 69
evaluates `cacheProvider.Contains(key)` only when `Cachethumbnails` is set. -/
def resizedHit (env : Collaborators σ Img) (config : Configuration) (key : String)
    (w : World σ Img) : Except (World σ Img) (World σ Img) :=
  if config.Cachethumbnails then
    let w1 := w.emit (Event.Contains key)
    if env.cacheProvider.Contains w1.cache key then
      let g := env.cacheProvider.Get w1.cache key
      let w2 := (w1.setCache g.2).emit (Event.Get key)
      Except.error (w2.jpegEncodeW env g.1.1)
    else
      Except.ok w1
  else
    Except.ok w

/-- Lines 78-95: the result is `(imageBuffer, cachedHit)` and the world. -/
def download (env : Collaborators σ Img) (imageUrl originalImageKey : String)
    (w : World σ Img) : Except (World σ Img) (Response × Bool × World σ Img) :=
  let w1 := w.emit (Event.Contains originalImageKey)
  if env.cacheProvider.Contains w1.cache originalImageKey then
    Except.ok (newResponse, true, w1)
  else
    let w2 := (w1.emit Event.logDownloading).emit (Event.httpGet imageUrl)
    match env.httpGet imageUrl with
    | Except.error err => Except.error (w2.emit (Event.FormatError err))
    | Except.ok imageBuffer => Except.ok (imageBuffer, false, w2)

/-- Lines 99-102. -/
def statusCheck (imageBuffer : Response) (cachedHit : Bool)
    (w : World σ Img) : Except (World σ Img) (World σ Img) :=
  if imageBuffer.StatusCode != 200 && cachedHit == false then
    Except.error (w.emit Event.NotFound)
  else
    Except.ok w

/-- Lines 104-124: the result is `finalImage` and the world. -/
def obtainImage (env : Collaborators σ Img) (key originalImageKey : String)
    (imageBuffer : Response) (cachedHit : Bool)
    (w : World σ Img) : Except (World σ Img) (Img × World σ Img) :=
  if cachedHit == false then
    let w1 := w.emit (Event.Decode imageBuffer.Body)
    match env.Decode imageBuffer.Body with
    | Except.error err =>
      let w2 := (w1.setCache (env.cacheProvider.Delete w1.cache originalImageKey).2).emit
        (Event.Delete originalImageKey)
      let w3 := (w2.setCache (env.cacheProvider.Delete w2.cache key).2).emit (Event.Delete key)
      Except.error ((w3.emit Event.logDecodeError).emit (Event.FormatError err))
    | Except.ok finalImage => Except.ok (finalImage, w1)
  else
    let g := env.cacheProvider.Get w.cache originalImageKey
    let w1 := (w.setCache g.2).emit (Event.Get originalImageKey)
    match g.1.2 with
    | some err => Except.ok (g.1.1, w1.emit (Event.logReadError err))
    | none => Except.ok (g.1.1, w1)

/-- Lines 126-133: the size handed to the resize primitive.  `Except.error` carries the world
at the panic of `finalImage.Bounds()` (line 128) on a nil image. -/
def aspectSize (env : Collaborators σ Img) (size : Size) (finalImage : Img)
    (w : World σ Img) : Except (World σ Img) (Size × World σ Img) :=
  if size.Width > 0 && size.Height > 0 then
    match env.Bounds finalImage with
    | none => Except.error (w.emit Event.panic)
    | some b =>
      let aspectedRatioSize := env.calculateAspectRatio size b.Max.Y b.Max.X
      Except.ok ({ Width := aspectedRatioSize.Width, Height := aspectedRatioSize.Height },
        w.emit (Event.calculateAspectRatio size b.Max.Y b.Max.X))
  else
    Except.ok (size, w)

/-- Lines 126-135: the result is `imageResized` and the world. -/
def resizeImage (env : Collaborators σ Img) (size : Size) (finalImage : Img)
    (w : World σ Img) : Except (World σ Img) (Img × World σ Img) :=
  match aspectSize env size finalImage w with
  | Except.error w1 => Except.error w1
  | Except.ok (s, w1) =>
    Except.ok
      (env.Resize s.Width s.Height finalImage InterpolationFunction.NearestNeighbor,
        w1.emit (Event.Resize s.Width s.Height finalImage InterpolationFunction.NearestNeighbor))

/-- Lines 137-142. -/
def resolveContentType (imageBuffer : Response) (cachedHit : Bool) : String :=
  if cachedHit then "image/jpeg" else HeaderGet imageBuffer.Header "Content-Type"

/-- Lines 145-152. -/
def storeResized (env : Collaborators σ Img) (config : Configuration) (key : String)
    (imageResized : Img) (w : World σ Img) : Except (World σ Img) (World σ Img) :=
  if config.Cachethumbnails then
    let buf := (env.jpegEncode imageResized).1
    let w1 := w.emit (Event.jpegEncode Target.buffer imageResized)
    let s := env.cacheProvider.Set w1.cache key buf
    let w2 := (w1.setCache s.2).emit (Event.Set key buf)
    match s.1 with
    | some err => Except.error (w2.emit (Event.FormatError err))
    | none => Except.ok w2
  else
    Except.ok w

/-- Lines 154-164. -/
def storeOriginal (env : Collaborators σ Img) (originalImageKey : String)
    (finalImage : Img) (cachedHit : Bool)
    (w : World σ Img) : Except (World σ Img) (World σ Img) :=
  if cachedHit == false then
    let e := env.jpegEncode finalImage
    let w1 := w.emit (Event.jpegEncode Target.buffer finalImage)
    let w2 := match e.2 with
      | some _ => w1.emit Event.logEncodeError
      | none => w1
    let s := env.cacheProvider.Set w2.cache originalImageKey e.1
    let w3 := (w2.setCache s.2).emit (Event.Set originalImageKey e.1)
    match s.1 with
    | some err => Except.error (w3.emit (Event.FormatError err))
    | none => Except.ok w3
  else
    Except.ok w

/-- Lines 144-164: the cache-population step. -/
def storeToCache (env : Collaborators σ Img) (config : Configuration)
    (key originalImageKey : String) (finalImage imageResized : Img) (cachedHit : Bool)
    (w : World σ Img) : Except (World σ Img) (World σ Img) :=
  match storeResized env config key imageResized w with
  | Except.error w1 => Except.error w1
  | Except.ok w1 => storeOriginal env originalImageKey finalImage cachedHit w1

/-- Lines 166-181: the respond step. -/
def deliver (env : Collaborators σ Img) (contentType : String) (imageResized : Img)
    (w : World σ Img) : World σ Img :=
  let w1 :=
    if contentType = "image/png" then
      (w.pngEncodeW env imageResized).emit (Event.logHandled contentType)
    else if contentType = "image/jpeg" then
      (w.jpegEncodeW env imageResized).emit (Event.logHandled contentType)
    else if contentType = "binary/octet-stream" then
      (w.jpegEncodeW env imageResized).emit (Event.logHandled contentType)
    else
      w.emit (Event.logCannotHandle contentType)
  w1.emit Event.FreeOSMemory

/-- The handler's local variables once the source image is in hand (line 125). -/
structure Acquired (Img : Type) where
  size : Size
  key : String
  originalImageKey : String
  imageBuffer : Response
  cachedHit : Bool
  finalImage : Img
deriving DecidableEq, Repr

/-- Lines 52-124: validation, the two cache lookups, the download and the decode.
`Except.error` carries the world at an early `return`. -/
def acquire (env : Collaborators σ Img) (config : Configuration) (r : Request)
    (w : World σ Img) : Except (World σ Img) (Acquired Img × World σ Img) :=
  let imageUrl := config.ImageHost ++ r.path
  let size := env.GetImageSize r.size config
  match env.CheckRequestNewSize config size with
  | some err => Except.error (w.emit (Event.FormatError err))
  | none =>
    let imageId := env.ExtractIdFromUrl imageUrl
    let key := resizedKey size imageId
    match resizedHit env config key w with
    | Except.error w1 => Except.error w1
    | Except.ok w1 =>
      let originalImageKey := originalKey imageId
      match download env imageUrl originalImageKey w1 with
      | Except.error w2 => Except.error w2
      | Except.ok (imageBuffer, cachedHit, w2) =>
        match statusCheck imageBuffer cachedHit w2 with
        | Except.error w3 => Except.error w3
        | Except.ok w3 =>
          match obtainImage env key originalImageKey imageBuffer cachedHit w3 with
          | Except.error w4 => Except.error w4
          | Except.ok (finalImage, w4) =>
            Except.ok ({ size := size, key := key, originalImageKey := originalImageKey,
                         imageBuffer := imageBuffer, cachedHit := cachedHit,
                         finalImage := finalImage }, w4)

/-- Lines 126-181: resize, content type, cache population and response. -/
def finish (env : Collaborators σ Img) (config : Configuration) (a : Acquired Img)
    (w : World σ Img) : World σ Img :=
  match resizeImage env a.size a.finalImage w with
  | Except.error w1 => w1
  | Except.ok (imageResized, w1) =>
    let contentType := resolveContentType a.imageBuffer a.cachedHit
    match storeToCache env config a.key a.originalImageKey a.finalImage imageResized
        a.cachedHit w1 with
    | Except.error w2 => w2
    | Except.ok w2 => deliver env contentType imageResized w2

/-- The handler `resizing`, resizer.go lines 51-183. -/
def resizing (env : Collaborators σ Img) (config : Configuration) (r : Request)
    (w : World σ Img) : World σ Img :=
  match acquire env config r w with
  | Except.error w1 => w1
  | Except.ok (a, w1) => finish env config a w1

/-- The world a request starts in: provider state `c`, no call made, nothing written. -/
def World.start (c : σ) : World σ Img :=
  { cache := c, trace := [], body := [] }

/-- Line 56: the source URL of a request. -/
def requestUrl (config : Configuration) (r : Request) : String :=
  config.ImageHost ++ r.path

/-- Line 57: the requested size. -/
def requestSize (env : Collaborators σ Img) (config : Configuration) (r : Request) : Size :=
  env.GetImageSize r.size config

/-- Lines 66-67: the resized-variant key of a request. -/
def requestKey (env : Collaborators σ Img) (config : Configuration) (r : Request) : String :=
  resizedKey (requestSize env config r) (env.ExtractIdFromUrl (requestUrl config r))

/-- Lines 66 and 76: the original-image key of a request. -/
def requestOriginalKey (env : Collaborators σ Img) (config : Configuration)
    (r : Request) : String :=
  originalKey (env.ExtractIdFromUrl (requestUrl config r))

/-! ## Predicates on calls, used to state the properties -/

/-- A `cacheProvider.Set` on key `k`. -/
def Event.isSet (k : String) : Event Img → Bool
  | Event.Set k1 _ => k1 == k
  | _ => false

/-- A `cacheProvider.Contains` or `cacheProvider.Get` on key `k`. -/
def Event.isLookup (k : String) : Event Img → Bool
  | Event.Contains k1 => k1 == k
  | Event.Get k1 => k1 == k
  | _ => false

/-- Any call of the cache provider. -/
def Event.isCacheOp : Event Img → Bool
  | Event.Contains _ => true
  | Event.Get _ => true
  | Event.Set _ _ => true
  | Event.Delete _ => true
  | _ => false

/-- A `cacheProvider.Set` or `cacheProvider.Delete`, on any key. -/
def Event.isCacheWrite : Event Img → Bool
  | Event.Set _ _ => true
  | Event.Delete _ => true
  | _ => false

/-- A call of `httpClient.Get`. -/
def Event.isFetch : Event Img → Bool
  | Event.httpGet _ => true
  | _ => false

/-- A call of `image.Decode`. -/
def Event.isDecode : Event Img → Bool
  | Event.Decode _ => true
  | _ => false

/-- A call of `calculateAspectRatio`. -/
def Event.isAspect : Event Img → Bool
  | Event.calculateAspectRatio _ _ _ => true
  | _ => false

/-- A call of `resize.Resize`. -/
def Event.isResize : Event Img → Bool
  | Event.Resize _ _ _ _ => true
  | _ => false

/-- A call of `jpeg.Encode` or `png.Encode`. -/
def Event.isEncode : Event Img → Bool
  | Event.jpegEncode _ _ => true
  | Event.pngEncode _ => true
  | _ => false

/-! ## Example collaborators -/

/-- An example provider over an association list; an image is the list of its bytes.
`failGet` makes every `Get` report an error, `failSet` every `Set`. -/
def exampleProvider (failGet failSet : Bool) :
    CacheProvider (List (String × List Nat)) (List Nat) where
  Contains := fun s k => (s.lookup k).isSome
  Get := fun s k =>
    match s.lookup k with
    | some v => if failGet then (([], some "corrupt entry"), s) else ((v, none), s)
    | none => (([], some "not found"), s)
  Set := fun s k v => if failSet then (some "disk full", s) else (none, (k, v) :: s)
  Delete := fun s k => (none, s.filter (fun p => p.1 != k))

/-- Example collaborators: sizes are validated against `SizeLimits`, the image id is the URL,
the upstream serves `/foo.jpg`, `/foo.png` and `/foo.gif` (three-byte images with their
content types), `/crop.jpg` (an image whose bounds do not start at the origin), `/bad.jpg`
(an empty body, which does not decode) and `/gone.jpg` (status 404); every other URL is a
transport failure.  The empty byte list is the nil image. -/
def exampleEnv (failGet failSet : Bool) :
    Collaborators (List (String × List Nat)) (List Nat) where
  GetImageSize := fun s _ =>
    if s = "200x200" then { Width := 200, Height := 200 }
    else if s = "0x100" then { Width := 0, Height := 100 }
    else { Width := 9999, Height := 9999 }
  CheckRequestNewSize := fun c s =>
    if s.Width > c.SizeLimits.Width || s.Height > c.SizeLimits.Height then some "size too big"
    else none
  ExtractIdFromUrl := fun u => u
  cacheProvider := exampleProvider failGet failSet
  httpGet := fun u =>
    if u = "http://img/foo.jpg" then
      Except.ok { StatusCode := 200, Header := [("Content-Type", "image/jpeg")], Body := [1, 2, 3] }
    else if u = "http://img/foo.png" then
      Except.ok { StatusCode := 200, Header := [("Content-Type", "image/png")], Body := [4, 5, 6] }
    else if u = "http://img/foo.gif" then
      Except.ok { StatusCode := 200, Header := [("Content-Type", "image/gif")], Body := [4, 5, 6] }
    else if u = "http://img/crop.jpg" then
      Except.ok { StatusCode := 200, Header := [("Content-Type", "image/jpeg")], Body := [7, 7] }
    else if u = "http://img/bad.jpg" then
      Except.ok { StatusCode := 200, Header := [("Content-Type", "image/jpeg")], Body := [] }
    else if u = "http://img/gone.jpg" then
      Except.ok { StatusCode := 404, Header := [], Body := [] }
    else Except.error "no such host"
  Decode := fun b => if b = [] then Except.error "image: unknown format" else Except.ok b
  Bounds := fun img =>
    if img = [] then none
    else if img = [7, 7] then
      some { Min := { X := 10, Y := 20 }, Max := { X := 1010, Y := 520 } }
    else some { Min := { X := 0, Y := 0 }, Max := { X := 1000, Y := 500 } }
  calculateAspectRatio := fun s _ _ => { Width := s.Width, Height := s.Height / 2 }
  Resize := fun w h img _ => w :: h :: img
  jpegEncode := fun img => (img, none)
  pngEncode := fun img => (0 :: img, none)

/-- An example request: size `200x200` of `/foo.jpg`. -/
def exampleRequest : Request := { size := "200x200", path := "/foo.jpg" }

/-- An example configuration. -/
def exampleConfig (cachethumbnails : Bool) : Configuration :=
  { Port := 8080, ImageHost := "http://img", HostWhiteList := [],
    SizeLimits := { Width := 1000, Height := 1000 }, Placeholders := [], Warmupsizes := [],
    Cachethumbnails := cachethumbnails }

/-! ## Descriptions of the expected calls, used in the statements and proofs -/

/-- The calls of lines 69-124 on a request that reaches line 125 from provider state `c`. -/
def acquireEvents (env : Collaborators σ Img) (config : Configuration) (r : Request) (c : σ)
    (a : Acquired Img) : List (Event Img) :=
  (if config.Cachethumbnails then [Event.Contains a.key] else []) ++
    (if a.cachedHit then
      Event.Contains a.originalImageKey :: Event.Get a.originalImageKey ::
        (match (env.cacheProvider.Get c a.originalImageKey).1.2 with
          | some err => [Event.logReadError err]
          | none => [])
    else
      [Event.Contains a.originalImageKey, Event.logDownloading,
        Event.httpGet (requestUrl config r), Event.Decode a.imageBuffer.Body])

/-- What is known when `acquire` hands over to the resize step. -/
structure Reached (env : Collaborators σ Img) (config : Configuration) (r : Request)
    (w : World σ Img) (a : Acquired Img) (w1 : World σ Img) : Prop where
  valid : env.CheckRequestNewSize config (requestSize env config r) = none
  size_eq : a.size = requestSize env config r
  key_eq : a.key = requestKey env config r
  originalKey_eq : a.originalImageKey = requestOriginalKey env config r
  resizedMiss : (config.Cachethumbnails && env.cacheProvider.Contains w.cache a.key) = false
  cachedHit_eq : a.cachedHit = env.cacheProvider.Contains w.cache a.originalImageKey
  body_eq : w1.body = w.body
  trace_eq : w1.trace = w.trace ++ acquireEvents env config r w.cache a
  hit : a.cachedHit = true → a.imageBuffer = newResponse ∧
    a.finalImage = (env.cacheProvider.Get w.cache a.originalImageKey).1.1 ∧
    w1.cache = (env.cacheProvider.Get w.cache a.originalImageKey).2
  miss : a.cachedHit = false → env.httpGet (requestUrl config r) = Except.ok a.imageBuffer ∧
    a.imageBuffer.StatusCode = 200 ∧
    env.Decode a.imageBuffer.Body = Except.ok a.finalImage ∧ w1.cache = w.cache

/-- The calls of lines 126-135; the panic of line 128 when the image is nil. -/
def resizeEvents (env : Collaborators σ Img) (size : Size) (finalImage : Img) :
    List (Event Img) :=
  if size.Width > 0 && size.Height > 0 then
    match env.Bounds finalImage with
    | none => [Event.panic]
    | some b =>
      [Event.calculateAspectRatio size b.Max.Y b.Max.X,
        Event.Resize (env.calculateAspectRatio size b.Max.Y b.Max.X).Width
          (env.calculateAspectRatio size b.Max.Y b.Max.X).Height
          finalImage InterpolationFunction.NearestNeighbor]
  else
    [Event.Resize size.Width size.Height finalImage InterpolationFunction.NearestNeighbor]

/-- The calls of lines 145-152 from provider state `c`. -/
def storeResizedEvents (env : Collaborators σ Img) (config : Configuration) (key : String)
    (imageResized : Img) (c : σ) : List (Event Img) :=
  if config.Cachethumbnails then
    Event.jpegEncode Target.buffer imageResized ::
      Event.Set key (env.jpegEncode imageResized).1 ::
      (match (env.cacheProvider.Set c key (env.jpegEncode imageResized).1).1 with
        | some err => [Event.FormatError err]
        | none => [])
  else []

/-- The calls of lines 154-164 from provider state `c`. -/
def storeOriginalEvents (env : Collaborators σ Img) (originalImageKey : String)
    (finalImage : Img) (cachedHit : Bool) (c : σ) : List (Event Img) :=
  if cachedHit == false then
    Event.jpegEncode Target.buffer finalImage ::
      ((match (env.jpegEncode finalImage).2 with
        | some _ => [Event.logEncodeError]
        | none => []) ++
      Event.Set originalImageKey (env.jpegEncode finalImage).1 ::
      (match (env.cacheProvider.Set c originalImageKey (env.jpegEncode finalImage).1).1 with
        | some err => [Event.FormatError err]
        | none => []))
  else []

/-- The calls of lines 166-181. -/
def deliverEvents (contentType : String) (imageResized : Img) : List (Event Img) :=
  if contentType = "image/png" then
    [Event.pngEncode imageResized, Event.logHandled contentType, Event.FreeOSMemory]
  else if contentType = "image/jpeg" then
    [Event.jpegEncode Target.response imageResized, Event.logHandled contentType,
      Event.FreeOSMemory]
  else if contentType = "binary/octet-stream" then
    [Event.jpegEncode Target.response imageResized, Event.logHandled contentType,
      Event.FreeOSMemory]
  else
    [Event.logCannotHandle contentType, Event.FreeOSMemory]

/-- The provider state after lines 145-152, when line 148 did not return. -/
def cacheAfterResized (env : Collaborators σ Img) (config : Configuration) (a : Acquired Img)
    (imageResized : Img) (c : σ) : σ :=
  if config.Cachethumbnails then
    (env.cacheProvider.Set c a.key (env.jpegEncode imageResized).1).2
  else c

/-- Line 148 did not report an error (or was not reached because `Cachethumbnails` is off). -/
def resizedStored (env : Collaborators σ Img) (config : Configuration) (a : Acquired Img)
    (imageResized : Img) (c : σ) : Bool :=
  !config.Cachethumbnails ||
    (env.cacheProvider.Set c a.key (env.jpegEncode imageResized).1).1.isNone

/-- Line 160 did not report an error (or was not reached because of an original-cache-hit). -/
def originalStored (env : Collaborators σ Img) (config : Configuration) (a : Acquired Img)
    (imageResized : Img) (c : σ) : Bool :=
  a.cachedHit ||
    (env.cacheProvider.Set (cacheAfterResized env config a imageResized c) a.originalImageKey
      (env.jpegEncode a.finalImage).1).1.isNone

/-- A call made at lines 69-124 on a request that reaches line 125. -/
def Event.isPre : Event Img → Bool
  | Event.Contains _ => true
  | Event.Get _ => true
  | Event.logReadError _ => true
  | Event.logDownloading => true
  | Event.httpGet _ => true
  | Event.Decode _ => true
  | _ => false

/-- A call made at lines 144-181. -/
def Event.isPost : Event Img → Bool
  | Event.jpegEncode _ _ => true
  | Event.pngEncode _ => true
  | Event.Set _ _ => true
  | Event.FormatError _ => true
  | Event.logEncodeError => true
  | Event.logHandled _ => true
  | Event.logCannotHandle _ => true
  | Event.FreeOSMemory => true
  | _ => false

/-- The calls of lines 144-181 from provider state `c`. -/
def postEvents (env : Collaborators σ Img) (config : Configuration) (a : Acquired Img)
    (imageResized : Img) (c : σ) : List (Event Img) :=
  storeResizedEvents env config a.key imageResized c ++
    (if resizedStored env config a imageResized c then
      storeOriginalEvents env a.originalImageKey a.finalImage a.cachedHit
          (cacheAfterResized env config a imageResized c) ++
        (if originalStored env config a imageResized c then
          deliverEvents (resolveContentType a.imageBuffer a.cachedHit) imageResized
        else [])
    else [])

/-- The locals at line 125 of the example request for size `200x200` of `path`, served with
content type `contentType` and body `body`, starting from an empty cache. -/
def exampleAcquired (path contentType : String) (body : List Nat) : Acquired (List Nat) :=
  { size := { Width := 200, Height := 200 },
    key := "200_200_http://img" ++ path,
    originalImageKey := "original_http://img" ++ path,
    imageBuffer := { StatusCode := 200, Header := [("Content-Type", contentType)], Body := body },
    cachedHit := false,
    finalImage := body }

/-- The world of that request at line 125. -/
def exampleAcquiredWorld (path : String) (body : List Nat) :
    World (List (String × List Nat)) (List Nat) :=
  { cache := [],
    trace := [Event.Contains ("200_200_http://img" ++ path),
      Event.Contains ("original_http://img" ++ path), Event.logDownloading,
      Event.httpGet ("http://img" ++ path), Event.Decode body],
    body := [] }

/-- The world of that request at line 136, the bounds of the image ending at `(maxX, maxY)`. -/
def exampleResizedWorld (path : String) (body : List Nat) (maxY maxX : Int) :
    World (List (String × List Nat)) (List Nat) :=
  { cache := [],
    trace := (exampleAcquiredWorld path body).trace ++
      [Event.calculateAspectRatio { Width := 200, Height := 200 } maxY maxX,
        Event.Resize 200 100 body InterpolationFunction.NearestNeighbor],
    body := [] }

/-- The world of that request at line 165, when no `Set` fails. -/
def exampleStoredWorld (path : String) (body : List Nat) (maxY maxX : Int) :
    World (List (String × List Nat)) (List Nat) :=
  { cache := [("original_http://img" ++ path, body),
      ("200_200_http://img" ++ path, 200 :: 100 :: body)],
    trace := (exampleResizedWorld path body maxY maxX).trace ++
      [Event.jpegEncode Target.buffer (200 :: 100 :: body),
        Event.Set ("200_200_http://img" ++ path) (200 :: 100 :: body),
        Event.jpegEncode Target.buffer body,
        Event.Set ("original_http://img" ++ path) body],
    body := [] }

/-- The locals at line 125 of the example request for `/foo.jpg` when the cached original is
present and `Get` reports an error: the image is nil. -/
def exampleAcquiredNil : Acquired (List Nat) :=
  { size := { Width := 200, Height := 200 },
    key := "200_200_http://img/foo.jpg",
    originalImageKey := "original_http://img/foo.jpg",
    imageBuffer := newResponse,
    cachedHit := true,
    finalImage := [] }

/-- The world of that request at line 125. -/
def exampleAcquiredNilWorld : World (List (String × List Nat)) (List Nat) :=
  { cache := [("original_http://img/foo.jpg", [1, 2, 3])],
    trace := [Event.Contains "200_200_http://img/foo.jpg",
      Event.Contains "original_http://img/foo.jpg", Event.Get "original_http://img/foo.jpg",
      Event.logReadError "corrupt entry"],
    body := [] }

/-- The locals at line 125 of the example request for size `0x100` of `/foo.jpg` when the
original is cached: an original-cache-hit. -/
def exampleAcquiredHit : Acquired (List Nat) :=
  { size := { Width := 0, Height := 100 },
    key := "100_0_http://img/foo.jpg",
    originalImageKey := "original_http://img/foo.jpg",
    imageBuffer := newResponse,
    cachedHit := true,
    finalImage := [1, 2, 3] }

/-- The world of that request at line 125, `Cachethumbnails` off. -/
def exampleAcquiredHitWorld : World (List (String × List Nat)) (List Nat) :=
  { cache := [("original_http://img/foo.jpg", [1, 2, 3])],
    trace := [Event.Contains "original_http://img/foo.jpg",
      Event.Get "original_http://img/foo.jpg"],
    body := [] }

/-- The world of that request at line 136 and, nothing being stored, at line 165. -/
def exampleResizedHitWorld : World (List (String × List Nat)) (List Nat) :=
  { cache := [("original_http://img/foo.jpg", [1, 2, 3])],
    trace := [Event.Contains "original_http://img/foo.jpg",
      Event.Get "original_http://img/foo.jpg",
      Event.Resize 0 100 [1, 2, 3] InterpolationFunction.NearestNeighbor],
    body := [] }

/-! ## Lemmas on the cache keys and on the stages of the handler -/

theorem toDigitsCore_append (f : Nat) : ∀ (n : Nat) (ds : List Char),
    Nat.toDigitsCore 10 f n ds = Nat.toDigitsCore 10 f n [] ++ ds := by
  induction f with
  | zero => intro n ds; simp [Nat.toDigitsCore]
  | succ f ih =>
    intro n ds
    simp only [Nat.toDigitsCore]
    split
    · simp
    · rw [ih (n / 10) (Nat.digitChar (n % 10) :: ds), ih (n / 10) [Nat.digitChar (n % 10)]]
      simp

theorem toDigitsCore_fuel (f : Nat) : ∀ (g n : Nat), n < f → n < g →
    Nat.toDigitsCore 10 f n [] = Nat.toDigitsCore 10 g n [] := by
  induction f with
  | zero => intro g n h; omega
  | succ f ih =>
    intro g n hf hg
    cases g with
    | zero => omega
    | succ g =>
      simp only [Nat.toDigitsCore]
      split
      · rfl
      · rename_i h
        rw [toDigitsCore_append f, toDigitsCore_append g,
          ih g (n / 10) (by omega) (by omega)]

theorem toDigits_step (n : Nat) :
    Nat.toDigits 10 n =
      if n < 10 then [Nat.digitChar n] else Nat.toDigits 10 (n / 10) ++ [Nat.digitChar (n % 10)] := by
  have key : Nat.toDigitsCore 10 (n + 1) n [] =
      if n / 10 = 0 then [Nat.digitChar (n % 10)]
      else Nat.toDigitsCore 10 n (n / 10) [Nat.digitChar (n % 10)] := rfl
  show Nat.toDigitsCore 10 (n + 1) n [] =
    if n < 10 then [Nat.digitChar n]
    else Nat.toDigitsCore 10 (n / 10 + 1) (n / 10) [] ++ [Nat.digitChar (n % 10)]
  rw [key]
  by_cases h : n < 10
  · have h0 : n / 10 = 0 := by omega
    have h1 : n % 10 = n := by omega
    simp [h, h0, h1]
  · have h0 : ¬ n / 10 = 0 := by omega
    simp only [h, h0, if_false]
    rw [toDigitsCore_append, toDigitsCore_fuel n (n / 10 + 1) (n / 10) (by omega) (by omega)]

theorem toDigits_length_pos (n : Nat) : 0 < (Nat.toDigits 10 n).length := by
  rw [toDigits_step]; split <;> simp

theorem digitChar_isDigit : ∀ d : Nat, d < 10 → (Nat.digitChar d).isDigit = true := by
  decide

theorem digitChar_inj : ∀ a : Nat, a < 10 → ∀ b : Nat, b < 10 →
    Nat.digitChar a = Nat.digitChar b → a = b := by
  decide

theorem toDigits_ne_nil (n : Nat) : Nat.toDigits 10 n ≠ [] := by
  rw [toDigits_step]; split <;> simp

theorem toDigits_isDigit : ∀ (n : Nat) (c : Char), c ∈ Nat.toDigits 10 n → c.isDigit = true := by
  intro n
  induction n using Nat.strong_induction_on with
  | _ n ih =>
    intro c hc
    rw [toDigits_step] at hc
    split at hc
    · simp at hc; subst hc; exact digitChar_isDigit n (by assumption)
    · simp at hc
      rcases hc with hc | hc
      · exact ih (n / 10) (by omega) c hc
      · subst hc; exact digitChar_isDigit _ (by omega)

theorem toDigits_inj : ∀ (n m : Nat), Nat.toDigits 10 n = Nat.toDigits 10 m → n = m := by
  intro n
  induction n using Nat.strong_induction_on with
  | _ n ih =>
    intro m h
    rw [toDigits_step n, toDigits_step m] at h
    by_cases hn : n < 10 <;> by_cases hm : m < 10
    · simp [hn, hm] at h; exact digitChar_inj n hn m hm h
    · simp only [hn, hm, if_true, if_false] at h
      have h1 := congrArg List.length h
      simp only [List.length_append, List.length_singleton] at h1
      have h2 := toDigits_length_pos (m / 10)
      omega
    · simp only [hn, hm, if_true, if_false] at h
      have h1 := congrArg List.length h
      simp only [List.length_append, List.length_singleton] at h1
      have h2 := toDigits_length_pos (n / 10)
      omega
    · simp only [hn, hm, if_false] at h
      have h1 := List.append_inj' h rfl
      have e1 := ih (n / 10) (by omega) (m / 10) h1.1
      have e2 := digitChar_inj (n % 10) (by omega) (m % 10) (by omega) (by simpa using h1.2)
      omega

theorem split_at_underscore : ∀ (a b x y : List Char),
    (∀ c ∈ a, c.isDigit = true) → (∀ c ∈ b, c.isDigit = true) →
    a ++ '_' :: x = b ++ '_' :: y → a = b ∧ x = y := by
  intro a
  induction a with
  | nil =>
    intro b x y _ hb h
    cases b with
    | nil => simpa using h
    | cons c b =>
      simp at h
      have := hb c (by simp)
      rw [← h.1] at this
      exact absurd this (by decide)
  | cons d a ih =>
    intro b x y ha hb h
    cases b with
    | nil =>
      simp at h
      have := ha d (by simp)
      rw [h.1] at this
      exact absurd this (by decide)
    | cons c b =>
      simp at h
      have := ih b x y (fun c hc => ha c (by simp [hc])) (fun c hc => hb c (by simp [hc])) h.2
      exact ⟨by rw [h.1, this.1], this.2⟩

theorem resizedKey_data (s : Size) (i : String) :
    (resizedKey s i).data =
      Nat.toDigits 10 s.Height ++ '_' :: (Nat.toDigits 10 s.Width ++ '_' :: i.data) := by
  simp [resizedKey, toString, Nat.repr, List.asString]

theorem originalKey_data (i : String) :
    (originalKey i).data = 'o' :: 'r' :: 'i' :: 'g' :: 'i' :: 'n' :: 'a' :: 'l' :: '_' :: i.data := by
  simp [originalKey]

theorem resizedKey_inj (s1 s2 : Size) (i1 i2 : String)
    (h : resizedKey s1 i1 = resizedKey s2 i2) : s1 = s2 ∧ i1 = i2 := by
  have hd := congrArg String.data h
  rw [resizedKey_data, resizedKey_data] at hd
  have h1 := split_at_underscore _ _ _ _ (toDigits_isDigit _) (toDigits_isDigit _) hd
  have h2 := split_at_underscore _ _ _ _ (toDigits_isDigit _) (toDigits_isDigit _) h1.2
  have eh := toDigits_inj _ _ h1.1
  have ew := toDigits_inj _ _ h2.1
  refine ⟨?_, String.ext h2.2⟩
  cases s1; cases s2; simp_all

theorem originalKey_inj (i1 i2 : String) (h : originalKey i1 = originalKey i2) : i1 = i2 := by
  have hd := congrArg String.data h
  rw [originalKey_data, originalKey_data] at hd
  simp at hd
  exact String.ext hd

theorem resizedKey_ne_originalKey (s : Size) (i j : String) : resizedKey s i ≠ originalKey j := by
  intro h
  have hd := congrArg String.data h
  rw [resizedKey_data, originalKey_data] at hd
  have hne := toDigits_ne_nil s.Height
  cases hh : Nat.toDigits 10 s.Height with
  | nil => exact hne hh
  | cons c t =>
    rw [hh] at hd
    simp at hd
    have := toDigits_isDigit s.Height c (by rw [hh]; simp)
    rw [hd.1] at this
    exact absurd this (by decide)

theorem resizedHit_ok (env : Collaborators σ Img) (config : Configuration) (key : String)
    (w w1 : World σ Img) (h : resizedHit env config key w = Except.ok w1) :
    (config.Cachethumbnails && env.cacheProvider.Contains w.cache key) = false ∧
    w1.cache = w.cache ∧ w1.body = w.body ∧
    w1.trace = w.trace ++ (if config.Cachethumbnails then [Event.Contains key] else []) := by
  unfold resizedHit at h
  by_cases hc : config.Cachethumbnails = true
  · by_cases hk : env.cacheProvider.Contains w.cache key = true
    · simp [hc, hk, World.emit] at h
    · simp [hc, hk, World.emit] at h
      subst h
      simp [hc, hk]
  · simp [hc] at h
    subst h
    simp [hc]

theorem download_ok (env : Collaborators σ Img) (imageUrl originalImageKey : String)
    (w w1 : World σ Img) (imageBuffer : Response) (cachedHit : Bool)
    (h : download env imageUrl originalImageKey w = Except.ok (imageBuffer, cachedHit, w1)) :
    cachedHit = env.cacheProvider.Contains w.cache originalImageKey ∧
    w1.cache = w.cache ∧ w1.body = w.body ∧
    (cachedHit = true → imageBuffer = newResponse ∧
      w1.trace = w.trace ++ [Event.Contains originalImageKey]) ∧
    (cachedHit = false → env.httpGet imageUrl = Except.ok imageBuffer ∧
      w1.trace = w.trace ++
        [Event.Contains originalImageKey, Event.logDownloading, Event.httpGet imageUrl]) := by
  unfold download at h
  by_cases hk : env.cacheProvider.Contains w.cache originalImageKey = true
  · simp [hk, World.emit] at h
    obtain ⟨h1, h2, h3⟩ := h
    subst h1 h2 h3
    simp [hk]
  · simp only [World.emit, hk] at h
    cases hg : env.httpGet imageUrl with
    | error err => simp [hg] at h
    | ok resp =>
      simp [hg] at h
      obtain ⟨h1, h2, h3⟩ := h
      subst h1 h2 h3
      simp [hk]

theorem statusCheck_ok (imageBuffer : Response) (cachedHit : Bool) (w w1 : World σ Img)
    (h : statusCheck imageBuffer cachedHit w = Except.ok w1) :
    w1 = w ∧ (cachedHit = false → imageBuffer.StatusCode = 200) := by
  unfold statusCheck at h
  split at h
  · simp at h
  · rename_i hc
    simp at h
    refine ⟨h.symm, ?_⟩
    intro hch
    simp [hch] at hc
    exact hc

theorem obtainImage_ok (env : Collaborators σ Img) (key originalImageKey : String)
    (imageBuffer : Response) (cachedHit : Bool) (w w1 : World σ Img) (finalImage : Img)
    (h : obtainImage env key originalImageKey imageBuffer cachedHit w =
      Except.ok (finalImage, w1)) :
    w1.body = w.body ∧
    (cachedHit = false → env.Decode imageBuffer.Body = Except.ok finalImage ∧
      w1.cache = w.cache ∧ w1.trace = w.trace ++ [Event.Decode imageBuffer.Body]) ∧
    (cachedHit = true →
      finalImage = (env.cacheProvider.Get w.cache originalImageKey).1.1 ∧
      w1.cache = (env.cacheProvider.Get w.cache originalImageKey).2 ∧
      w1.trace = w.trace ++ Event.Get originalImageKey ::
        (match (env.cacheProvider.Get w.cache originalImageKey).1.2 with
          | some err => [Event.logReadError err]
          | none => [])) := by
  unfold obtainImage at h
  cases cachedHit with
  | false =>
    simp only [World.emit, World.setCache] at h
    cases hd : env.Decode imageBuffer.Body with
    | error err => simp [hd] at h
    | ok img =>
      simp [hd] at h
      obtain ⟨h1, h2⟩ := h
      subst h1 h2
      simp
  | true =>
    simp only [World.emit, World.setCache] at h
    cases hg : (env.cacheProvider.Get w.cache originalImageKey).1.2 with
    | none =>
      simp [hg] at h
      obtain ⟨h1, h2⟩ := h
      subst h1 h2
      simp
    | some err =>
      simp [hg] at h
      obtain ⟨h1, h2⟩ := h
      subst h1 h2
      simp

theorem acquire_ok (env : Collaborators σ Img) (config : Configuration) (r : Request)
    (w w1 : World σ Img) (a : Acquired Img)
    (h : acquire env config r w = Except.ok (a, w1)) : Reached env config r w a w1 := by
  unfold acquire at h
  simp only at h
  split at h
  · simp at h
  rename_i hv
  split at h
  · simp at h
  rename_i wa ha
  split at h
  · simp at h
  rename_i ib ch wb hb
  split at h
  · simp at h
  rename_i wc hc
  split at h
  · simp at h
  rename_i img wd hd
  simp only [Except.ok.injEq, Prod.mk.injEq] at h
  obtain ⟨h1, h2⟩ := h
  subst h1 h2
  have ra := resizedHit_ok _ _ _ _ _ ha
  have rb := download_ok _ _ _ _ _ _ _ hb
  have rc := statusCheck_ok _ _ _ _ hc
  have rd := obtainImage_ok _ _ _ _ _ _ _ _ hd
  obtain ⟨rc1, rc2⟩ := rc
  subst rc1
  obtain ⟨ra1, ra2, ra3, ra4⟩ := ra
  obtain ⟨rb1, rb2, rb3, rb4, rb5⟩ := rb
  obtain ⟨rd1, rd2, rd3⟩ := rd
  rw [ra2] at rb1
  constructor
  · exact hv
  · rfl
  · rfl
  · rfl
  · exact ra1
  · exact rb1
  · rw [rd1, rb3, ra3]
  · cases ch with
    | true =>
      have t1 := (rb4 rfl).2
      have t2 := (rd3 rfl).2.2
      rw [t2, t1, ra4, rb2, ra2]
      simp [acquireEvents]
    | false =>
      have t1 := (rb5 rfl).2
      have t2 := (rd2 rfl).2.2
      rw [t2, t1, ra4]
      simp [acquireEvents, requestUrl]
  · intro hch
    subst hch
    refine ⟨(rb4 rfl).1, ?_, ?_⟩
    · rw [(rd3 rfl).1, rb2, ra2]
    · rw [(rd3 rfl).2.1, rb2, ra2]
  · intro hch
    subst hch
    refine ⟨(rb5 rfl).1, rc2 rfl, (rd2 rfl).1, ?_⟩
    rw [(rd2 rfl).2.1, rb2, ra2]

theorem resizeImage_error (env : Collaborators σ Img) (size : Size) (img : Img)
    (w w2 : World σ Img) (h : resizeImage env size img w = Except.error w2) :
    w2 = { w with trace := w.trace ++ resizeEvents env size img } ∧
    resizeEvents env size img = [Event.panic] := by
  unfold resizeImage aspectSize at h
  unfold resizeEvents
  by_cases hc : (decide (size.Width > 0) && decide (size.Height > 0)) = true
  · cases hb : env.Bounds img with
    | none =>
      simp only [hc, hb, if_true, World.emit] at h
      simp only [Except.error.injEq] at h
      subst h
      simp [hc]
    | some b => simp [hc, hb] at h
  · simp [hc] at h

theorem resizeImage_ok (env : Collaborators σ Img) (size : Size) (img ir : Img)
    (w w2 : World σ Img) (h : resizeImage env size img w = Except.ok (ir, w2)) :
    w2 = { w with trace := w.trace ++ resizeEvents env size img } ∧
    ((decide (size.Width > 0) && decide (size.Height > 0)) = true →
      ∃ b, env.Bounds img = some b ∧
        ir = env.Resize (env.calculateAspectRatio size b.Max.Y b.Max.X).Width
          (env.calculateAspectRatio size b.Max.Y b.Max.X).Height img
          InterpolationFunction.NearestNeighbor) ∧
    ((decide (size.Width > 0) && decide (size.Height > 0)) = false →
      ir = env.Resize size.Width size.Height img InterpolationFunction.NearestNeighbor) := by
  unfold resizeImage aspectSize at h
  unfold resizeEvents
  by_cases hc : (decide (size.Width > 0) && decide (size.Height > 0)) = true
  · cases hb : env.Bounds img with
    | none => simp [hc, hb] at h
    | some b =>
      simp only [hc, hb, if_true, World.emit, Except.ok.injEq, Prod.mk.injEq] at h
      obtain ⟨h1, h2⟩ := h
      subst h1 h2
      simp [hc]
  · simp only [hc, World.emit, Except.ok.injEq, Prod.mk.injEq] at h
    simp only [Bool.false_eq_true, if_false, Except.ok.injEq, Prod.mk.injEq] at h
    obtain ⟨h1, h2⟩ := h
    subst h1 h2
    simp [hc]

theorem deliver_trace (env : Collaborators σ Img) (contentType : String) (imageResized : Img)
    (w : World σ Img) :
    (deliver env contentType imageResized w).trace =
      w.trace ++ deliverEvents contentType imageResized ∧
    (deliver env contentType imageResized w).cache = w.cache := by
  unfold deliver deliverEvents
  by_cases h1 : contentType = "image/png"
  · simp [h1, World.emit, World.pngEncodeW]
  by_cases h2 : contentType = "image/jpeg"
  · simp [h2, World.emit, World.jpegEncodeW]
  by_cases h3 : contentType = "binary/octet-stream"
  · simp [h3, World.emit, World.jpegEncodeW]
  simp [h1, h2, h3, World.emit]

theorem storeResized_cases (env : Collaborators σ Img) (config : Configuration)
    (a : Acquired Img) (ir : Img) (w : World σ Img) :
    (resizedStored env config a ir w.cache = true ∧
      storeResized env config a.key ir w =
        Except.ok { cache := cacheAfterResized env config a ir w.cache,
                    trace := w.trace ++ storeResizedEvents env config a.key ir w.cache,
                    body := w.body }) ∨
    (resizedStored env config a ir w.cache = false ∧
      ∃ w1, storeResized env config a.key ir w = Except.error w1 ∧
        w1.trace = w.trace ++ storeResizedEvents env config a.key ir w.cache ∧
        w1.body = w.body) := by
  unfold storeResized storeResizedEvents resizedStored cacheAfterResized
  cases hc : config.Cachethumbnails with
  | false => left; simp
  | true =>
    simp only [World.emit, World.setCache, if_true]
    cases hs : (env.cacheProvider.Set w.cache a.key (env.jpegEncode ir).1).1 with
    | none => left; simp
    | some err => right; simp

theorem storeOriginal_cases (env : Collaborators σ Img) (a : Acquired Img)
    (w : World σ Img) :
    ((a.cachedHit || (env.cacheProvider.Set w.cache a.originalImageKey
        (env.jpegEncode a.finalImage).1).1.isNone) = true ∧
      storeOriginal env a.originalImageKey a.finalImage a.cachedHit w =
        Except.ok { cache := if a.cachedHit == false then
                      (env.cacheProvider.Set w.cache a.originalImageKey
                        (env.jpegEncode a.finalImage).1).2 else w.cache,
                    trace := w.trace ++ storeOriginalEvents env a.originalImageKey a.finalImage
                      a.cachedHit w.cache,
                    body := w.body }) ∨
    ((a.cachedHit || (env.cacheProvider.Set w.cache a.originalImageKey
        (env.jpegEncode a.finalImage).1).1.isNone) = false ∧
      ∃ w1, storeOriginal env a.originalImageKey a.finalImage a.cachedHit w =
        Except.error w1 ∧
        w1.trace = w.trace ++ storeOriginalEvents env a.originalImageKey a.finalImage
          a.cachedHit w.cache ∧ w1.body = w.body) := by
  unfold storeOriginal storeOriginalEvents
  cases hch : a.cachedHit with
  | true => left; simp
  | false =>
    simp only [World.emit, World.setCache]
    cases he : (env.jpegEncode a.finalImage).2 <;>
      cases hs : (env.cacheProvider.Set w.cache a.originalImageKey
        (env.jpegEncode a.finalImage).1).1
    · left; simp [hs]
    · right; simp [hs]
    · left; simp [hs]
    · right; simp [hs]

theorem finish_of_resized (env : Collaborators σ Img) (config : Configuration)
    (a : Acquired Img) (ir : Img) (w w2 : World σ Img)
    (hresize : resizeImage env a.size a.finalImage w = Except.ok (ir, w2)) :
    finish env config a w =
      match storeToCache env config a.key a.originalImageKey a.finalImage ir a.cachedHit w2 with
      | Except.error w3 => w3
      | Except.ok w3 => deliver env (resolveContentType a.imageBuffer a.cachedHit) ir w3 := by
  unfold finish
  rw [hresize]

theorem finish_trace (env : Collaborators σ Img) (config : Configuration) (a : Acquired Img)
    (ir : Img) (w w2 : World σ Img)
    (hresize : resizeImage env a.size a.finalImage w = Except.ok (ir, w2)) :
    (finish env config a w).trace = w2.trace ++ postEvents env config a ir w2.cache := by
  rw [finish_of_resized env config a ir w w2 hresize]
  unfold postEvents storeToCache
  rcases storeResized_cases env config a ir w2 with ⟨h1, h2⟩ | ⟨h1, w1, h2, h3, _⟩
  · rw [h2, h1]
    simp only [if_true]
    rcases storeOriginal_cases env a
        { cache := cacheAfterResized env config a ir w2.cache,
          trace := w2.trace ++ storeResizedEvents env config a.key ir w2.cache,
          body := w2.body } with
      ⟨g1, g2⟩ | ⟨g1, w3, g2, g3, _⟩
    · simp only at g1 g2
      rw [g2]
      simp only [originalStored, g1, if_true]
      rw [(deliver_trace _ _ _ _).1]
      simp only [List.append_assoc]
    · simp only at g1 g2 g3
      rw [g2]
      simp only [originalStored, g1]
      rw [g3]
      simp
  · rw [h2, h1]
    simp only [h3]
    simp

theorem acquireEvents_isPre (env : Collaborators σ Img) (config : Configuration) (r : Request)
    (c : σ) (a : Acquired Img) : ∀ e ∈ acquireEvents env config r c a, e.isPre = true := by
  unfold acquireEvents
  cases config.Cachethumbnails <;> cases a.cachedHit <;>
    cases (env.cacheProvider.Get c a.originalImageKey).1.2 <;> simp [Event.isPre]

theorem storeResizedEvents_isPost (env : Collaborators σ Img) (config : Configuration)
    (key : String) (img : Img) (c : σ) :
    ∀ e ∈ storeResizedEvents env config key img c, e.isPost = true := by
  unfold storeResizedEvents
  cases config.Cachethumbnails <;>
    cases (env.cacheProvider.Set c key (env.jpegEncode img).1).1 <;> simp [Event.isPost]

theorem storeOriginalEvents_isPost (env : Collaborators σ Img) (key : String) (img : Img)
    (cachedHit : Bool) (c : σ) :
    ∀ e ∈ storeOriginalEvents env key img cachedHit c, e.isPost = true := by
  unfold storeOriginalEvents
  cases cachedHit <;> cases (env.jpegEncode img).2 <;>
    cases (env.cacheProvider.Set c key (env.jpegEncode img).1).1 <;> simp [Event.isPost]

theorem deliverEvents_isPost (contentType : String) (img : Img) :
    ∀ e ∈ (deliverEvents contentType img : List (Event Img)), e.isPost = true := by
  unfold deliverEvents
  split
  · simp [Event.isPost]
  split
  · simp [Event.isPost]
  split
  · simp [Event.isPost]
  · simp [Event.isPost]

theorem postEvents_isPost (env : Collaborators σ Img) (config : Configuration)
    (a : Acquired Img) (ir : Img) (c : σ) :
    ∀ e ∈ postEvents env config a ir c, e.isPost = true := by
  intro e he
  unfold postEvents at he
  rw [List.mem_append] at he
  rcases he with he | he
  · exact storeResizedEvents_isPost _ _ _ _ _ e he
  split at he
  · rw [List.mem_append] at he
    rcases he with he | he
    · exact storeOriginalEvents_isPost _ _ _ _ _ e he
    split at he
    · exact deliverEvents_isPost _ _ e he
    · simp at he
  · simp at he

/-- The calls of a request that reaches line 144 are those of lines 69-124, then those of
the resize step, then those of lines 144-181. -/
theorem resizing_trace (env : Collaborators σ Img) (config : Configuration) (r : Request)
    (c : σ) (a : Acquired Img) (ir : Img) (w1 w2 : World σ Img)
    (h : acquire env config r (World.start c) = Except.ok (a, w1))
    (hresize : resizeImage env a.size a.finalImage w1 = Except.ok (ir, w2)) :
    (resizing env config r (World.start c)).trace =
      acquireEvents env config r c a ++
        (resizeEvents env a.size a.finalImage ++ postEvents env config a ir w1.cache) := by
  have hr := acquire_ok env config r _ _ _ h
  have hw := (resizeImage_ok env a.size a.finalImage ir w1 w2 hresize).1
  unfold resizing
  rw [h]
  simp only
  rw [finish_trace env config a ir w1 w2 hresize, hw]
  simp only [hr.trace_eq]
  simp [World.start]

/-- The calls of a request that panics at line 128. -/
theorem resizing_trace_panic (env : Collaborators σ Img) (config : Configuration)
    (r : Request) (c : σ) (a : Acquired Img) (w1 w2 : World σ Img)
    (h : acquire env config r (World.start c) = Except.ok (a, w1))
    (hresize : resizeImage env a.size a.finalImage w1 = Except.error w2) :
    (resizing env config r (World.start c)).trace =
      acquireEvents env config r c a ++ [Event.panic] := by
  have hr := acquire_ok env config r _ _ _ h
  have hw := resizeImage_error env a.size a.finalImage w1 w2 hresize
  unfold resizing
  rw [h]
  simp only [finish, hresize]
  rw [hw.1]
  simp only [hw.2, hr.trace_eq]
  simp [World.start]

theorem storeToCache_ok (env : Collaborators σ Img) (config : Configuration)
    (a : Acquired Img) (ir : Img) (w w2 : World σ Img)
    (h : storeToCache env config a.key a.originalImageKey a.finalImage ir a.cachedHit w =
      Except.ok w2) :
    resizedStored env config a ir w.cache = true ∧
    originalStored env config a ir w.cache = true ∧
    w2.body = w.body ∧
    w2.cache = (if a.cachedHit == false then
      (env.cacheProvider.Set (cacheAfterResized env config a ir w.cache) a.originalImageKey
        (env.jpegEncode a.finalImage).1).2
      else cacheAfterResized env config a ir w.cache) := by
  unfold storeToCache at h
  rcases storeResized_cases env config a ir w with ⟨h1, h2⟩ | ⟨h1, w1, h2, _, _⟩
  · rw [h2] at h
    simp only at h
    rcases storeOriginal_cases env a
        { cache := cacheAfterResized env config a ir w.cache,
          trace := w.trace ++ storeResizedEvents env config a.key ir w.cache,
          body := w.body } with
      ⟨g1, g2⟩ | ⟨g1, w3, g2, _, _⟩
    · rw [g2] at h
      simp only [Except.ok.injEq] at h
      subst h
      exact ⟨h1, g1, rfl, rfl⟩
    · rw [g2] at h
      simp at h
  · rw [h2] at h
    simp at h

theorem resizing_of_stored (env : Collaborators σ Img) (config : Configuration) (r : Request)
    (c : σ) (a : Acquired Img) (ir : Img) (w1 w2 w3 : World σ Img)
    (hacq : acquire env config r (World.start c) = Except.ok (a, w1))
    (hresize : resizeImage env a.size a.finalImage w1 = Except.ok (ir, w2))
    (hstore : storeToCache env config a.key a.originalImageKey a.finalImage ir a.cachedHit w2 =
      Except.ok w3) :
    resizing env config r (World.start c) =
      deliver env (resolveContentType a.imageBuffer a.cachedHit) ir w3 := by
  unfold resizing
  rw [hacq]
  simp only
  rw [finish_of_resized env config a ir w1 w2 hresize, hstore]

theorem any_isSet_of_isPre (k : String) (l : List (Event Img))
    (h : ∀ e ∈ l, e.isPre = true) : l.any (Event.isSet k) = false := by
  rw [List.any_eq_false]
  intro e he
  have := h e he
  cases e <;> simp [Event.isPre, Event.isSet] at this ⊢

theorem resizeEvents_any_isSet (env : Collaborators σ Img) (size : Size) (img : Img)
    (k : String) : (resizeEvents env size img).any (Event.isSet k) = false := by
  unfold resizeEvents
  split
  · cases env.Bounds img <;> simp [Event.isSet]
  · simp [Event.isSet]

theorem storeResizedEvents_any_isSet (env : Collaborators σ Img) (config : Configuration)
    (key : String) (img : Img) (c : σ) (k : String) :
    (storeResizedEvents env config key img c).any (Event.isSet k) =
      (config.Cachethumbnails && key == k) := by
  unfold storeResizedEvents
  cases config.Cachethumbnails <;>
    cases (env.cacheProvider.Set c key (env.jpegEncode img).1).1 <;> simp [Event.isSet]

theorem storeOriginalEvents_any_isSet (env : Collaborators σ Img) (key : String) (img : Img)
    (cachedHit : Bool) (c : σ) (k : String) :
    (storeOriginalEvents env key img cachedHit c).any (Event.isSet k) =
      (!cachedHit && key == k) := by
  unfold storeOriginalEvents
  cases cachedHit <;> cases (env.jpegEncode img).2 <;>
    cases (env.cacheProvider.Set c key (env.jpegEncode img).1).1 <;> simp [Event.isSet]

theorem deliverEvents_any_isSet (contentType : String) (img : Img) (k : String) :
    (deliverEvents contentType img : List (Event Img)).any (Event.isSet k) = false := by
  unfold deliverEvents
  split
  · simp [Event.isSet]
  split
  · simp [Event.isSet]
  split
  · simp [Event.isSet]
  · simp [Event.isSet]

theorem postEvents_any_isSet (env : Collaborators σ Img) (config : Configuration)
    (a : Acquired Img) (ir : Img) (c : σ) (k : String) :
    (postEvents env config a ir c).any (Event.isSet k) =
      ((config.Cachethumbnails && a.key == k) ||
        (resizedStored env config a ir c && (!a.cachedHit && a.originalImageKey == k))) := by
  unfold postEvents
  rw [List.any_append, storeResizedEvents_any_isSet]
  cases hs : resizedStored env config a ir c with
  | false => simp
  | true =>
    simp only [if_true, List.any_append, storeOriginalEvents_any_isSet]
    cases ho : originalStored env config a ir c <;> simp [deliverEvents_any_isSet]

theorem resizing_of_resizedHit (env : Collaborators σ Img) (config : Configuration)
    (r : Request) (c : σ)
    (hvalid : env.CheckRequestNewSize config (requestSize env config r) = none)
    (hcfg : config.Cachethumbnails = true)
    (hhit : env.cacheProvider.Contains c (requestKey env config r) = true) :
    resizing env config r (World.start c) =
      { cache := (env.cacheProvider.Get c (requestKey env config r)).2,
        trace := [Event.Contains (requestKey env config r),
                  Event.Get (requestKey env config r),
                  Event.jpegEncode Target.response
                    (env.cacheProvider.Get c (requestKey env config r)).1.1],
        body := (env.jpegEncode (env.cacheProvider.Get c (requestKey env config r)).1.1).1 } := by
  simp only [requestKey, requestSize, requestUrl] at hvalid hhit ⊢
  simp [resizing, acquire, resizedHit, hvalid, hcfg, hhit, World.start, World.emit,
    World.setCache, World.jpegEncodeW]

theorem acquire_hit (env : Collaborators σ Img) (config : Configuration) (r : Request) (c : σ)
    (hvalid : env.CheckRequestNewSize config (requestSize env config r) = none)
    (hmiss : (config.Cachethumbnails &&
      env.cacheProvider.Contains c (requestKey env config r)) = false)
    (hO : env.cacheProvider.Contains c (requestOriginalKey env config r) = true) :
    ∃ a w1, acquire env config r (World.start c) = Except.ok (a, w1) := by
  simp only [requestKey, requestOriginalKey, requestSize, requestUrl] at hvalid hmiss hO
  cases hc : config.Cachethumbnails with
  | false =>
    cases hg : (env.cacheProvider.Get c
        (originalKey (env.ExtractIdFromUrl (config.ImageHost ++ r.path)))).1.2 <;>
      simp [acquire, resizedHit, download, statusCheck, obtainImage, hvalid, hc, hO, hg,
        World.start, World.emit, World.setCache]
  | true =>
    simp only [hc, Bool.true_and] at hmiss
    cases hg : (env.cacheProvider.Get c
        (originalKey (env.ExtractIdFromUrl (config.ImageHost ++ r.path)))).1.2 <;>
      simp [acquire, resizedHit, download, statusCheck, obtainImage, hvalid, hc, hmiss, hO, hg,
        World.start, World.emit, World.setCache]

theorem countP_isFetch_of_isPost (l : List (Event Img)) (h : ∀ e ∈ l, e.isPost = true) :
    l.countP Event.isFetch = 0 := by
  rw [List.countP_eq_zero]
  intro e he
  have := h e he
  cases e <;> simp [Event.isPost, Event.isFetch] at this ⊢

theorem resizeEvents_countP_isFetch (env : Collaborators σ Img) (size : Size) (img : Img) :
    (resizeEvents env size img).countP Event.isFetch = 0 := by
  unfold resizeEvents
  split
  · cases env.Bounds img <;> simp [Event.isFetch]
  · simp [Event.isFetch]

theorem acquireEvents_countP_isFetch (env : Collaborators σ Img) (config : Configuration)
    (r : Request) (c : σ) (a : Acquired Img) :
    (acquireEvents env config r c a).countP Event.isFetch = if a.cachedHit then 0 else 1 := by
  unfold acquireEvents
  cases config.Cachethumbnails <;> cases a.cachedHit <;>
    cases (env.cacheProvider.Get c a.originalImageKey).1.2 <;> simp [Event.isFetch]

theorem resizing_countP_isFetch (env : Collaborators σ Img) (config : Configuration)
    (r : Request) (c : σ) (a : Acquired Img) (w1 : World σ Img)
    (hacq : acquire env config r (World.start c) = Except.ok (a, w1)) :
    (resizing env config r (World.start c)).trace.countP Event.isFetch =
      if a.cachedHit then 0 else 1 := by
  cases hres : resizeImage env a.size a.finalImage w1 with
  | error w2 =>
    rw [resizing_trace_panic env config r c a w1 w2 hacq hres, List.countP_append,
      acquireEvents_countP_isFetch]
    simp [Event.isFetch]
  | ok p =>
    obtain ⟨ir, w2⟩ := p
    rw [resizing_trace env config r c a ir w1 w2 hacq hres, List.countP_append,
      List.countP_append, acquireEvents_countP_isFetch, resizeEvents_countP_isFetch,
      countP_isFetch_of_isPost _ (postEvents_isPost env config a ir w1.cache)]
    simp

theorem exampleProvider_set (failGet : Bool) :
    ∀ (s : List (String × List Nat)) (k : String) (v : List Nat),
      ((exampleProvider failGet false).Set s k v).1 = none →
      (exampleProvider failGet false).Contains ((exampleProvider failGet false).Set s k v).2 k
        = true ∧
      ∀ k1, (exampleProvider failGet false).Contains s k1 = true →
        (exampleProvider failGet false).Contains
          ((exampleProvider failGet false).Set s k v).2 k1 = true := by
  intro s k v _
  constructor
  · simp [exampleProvider, List.lookup]
  · intro k1 h1
    simp only [exampleProvider] at h1 ⊢
    simp only [Bool.false_eq_true, if_false, List.lookup]
    cases hk : k1 == k
    · exact h1
    · rfl

theorem exampleProvider_delete (failGet failSet : Bool) :
    (∀ (s : List (String × List Nat)) (k : String),
      (exampleProvider failGet failSet).Contains
        ((exampleProvider failGet failSet).Delete s k).2 k = false) ∧
    (∀ (s : List (String × List Nat)) (k k1 : String),
      (exampleProvider failGet failSet).Contains s k1 = false →
      (exampleProvider failGet failSet).Contains
        ((exampleProvider failGet failSet).Delete s k).2 k1 = false) := by
  constructor
  · intro s k
    simp only [exampleProvider]
    induction s with
    | nil => rfl
    | cons p s ih =>
      simp only [List.filter]
      cases hp : p.1 != k
      · exact ih
      · simp only [List.lookup]
        have : (k == p.1) = false := by
          simp only [bne_iff_ne, ne_eq] at hp
          simp only [beq_eq_false_iff_ne, ne_eq]
          exact fun h => hp h.symm
        rw [this]
        exact ih
  · intro s k k1
    simp only [exampleProvider]
    induction s with
    | nil => intro _; rfl
    | cons p s ih =>
      intro h
      simp only [List.lookup] at h
      cases hk : k1 == p.1
      · rw [hk] at h
        simp only [List.filter]
        cases hp : p.1 != k
        · exact ih h
        · simp only [List.lookup, hk]
          exact ih h
      · rw [hk] at h
        simp at h

theorem resolveContentType_eq (imageBuffer : Response) (cachedHit : Bool) :
    resolveContentType imageBuffer cachedHit =
      if cachedHit = true then "image/jpeg"
      else match imageBuffer.Header.lookup "Content-Type" with
        | some v => v
        | none => "" := by
  cases cachedHit <;> rfl

/-! ## The claims -/

/-- C1: a validated request whose resized-variant key is present while `Cachethumbnails` is on
is answered with the JPEG encoding of the value `cacheProvider.Get(key)` returns, and nothing
else happens: no lookup of the original key, no fetch, no decode, no resize, no `Set`, no
`Delete`. -/
theorem C1_resized_hit_short_circuits (env : Collaborators σ Img) (config : Configuration)
    (r : Request) (c : σ)
    (hvalid : env.CheckRequestNewSize config (requestSize env config r) = none)
    (hcfg : config.Cachethumbnails = true)
    (hhit : env.cacheProvider.Contains c (requestKey env config r) = true) :
    resizing env config r (World.start c) =
      { cache := (env.cacheProvider.Get c (requestKey env config r)).2,
        trace := [Event.Contains (requestKey env config r),
                  Event.Get (requestKey env config r),
                  Event.jpegEncode Target.response
                    (env.cacheProvider.Get c (requestKey env config r)).1.1],
        body := (env.jpegEncode (env.cacheProvider.Get c (requestKey env config r)).1.1).1 } ∧
    ∀ e ∈ (resizing env config r (World.start c)).trace,
      e.isLookup (requestOriginalKey env config r) = false ∧ e.isFetch = false ∧
      e.isDecode = false ∧ e.isAspect = false ∧ e.isResize = false ∧
      e.isCacheWrite = false := by
  have hne : (requestKey env config r == requestOriginalKey env config r) = false := by
    simp [requestKey, requestOriginalKey, resizedKey_ne_originalKey]
  have hrun := resizing_of_resizedHit env config r c hvalid hcfg hhit
  refine ⟨hrun, ?_⟩
  rw [hrun]
  intro e he
  simp only [List.mem_cons, List.mem_singleton, List.not_mem_nil, or_false] at he
  rcases he with he | he | he <;> subst he <;>
    simp [Event.isLookup, Event.isFetch, Event.isDecode, Event.isAspect, Event.isResize,
      Event.isCacheWrite, hne]

/-- The resized-variant cache hit of C1 on the example collaborators. -/
theorem C1_resized_hit_short_circuits_witness :
    resizing (exampleEnv false false) (exampleConfig true) exampleRequest
        (World.start [("200_200_http://img/foo.jpg", [9, 9])]) =
      { cache := [("200_200_http://img/foo.jpg", [9, 9])],
        trace := [Event.Contains "200_200_http://img/foo.jpg",
          Event.Get "200_200_http://img/foo.jpg", Event.jpegEncode Target.response [9, 9]],
        body := [9, 9] } :=
  (C1_resized_hit_short_circuits (exampleEnv false false) (exampleConfig true) exampleRequest
    [("200_200_http://img/foo.jpg", [9, 9])] (by decide) (by decide) (by decide)).1

/-- C2: with a provider where a successful `Set(k, v)` makes `Contains(k)` true and keeps
every present key present, let a first request on an empty cache reach the end of its cache
population.  It made exactly one HTTP fetch, and a following valid request for the same path,
of any size, makes none; with `Cachethumbnails` on and the same size the following request is
answered from the resized-variant key. -/
theorem C2_second_request_no_fetch (env : Collaborators σ Img) (config : Configuration)
    (r1 r2 : Request) (c0 : σ) (a : Acquired Img) (imageResized : Img)
    (w1 w2 w3 : World σ Img)
    (hSet : ∀ s k v, (env.cacheProvider.Set s k v).1 = none →
      env.cacheProvider.Contains (env.cacheProvider.Set s k v).2 k = true ∧
      ∀ k1, env.cacheProvider.Contains s k1 = true →
        env.cacheProvider.Contains (env.cacheProvider.Set s k v).2 k1 = true)
    (hempty : ∀ k, env.cacheProvider.Contains c0 k = false)
    (hpath : r2.path = r1.path)
    (hvalid2 : env.CheckRequestNewSize config (requestSize env config r2) = none)
    (hacq : acquire env config r1 (World.start c0) = Except.ok (a, w1))
    (hresize : resizeImage env a.size a.finalImage w1 = Except.ok (imageResized, w2))
    (hstore : storeToCache env config a.key a.originalImageKey a.finalImage imageResized
      a.cachedHit w2 = Except.ok w3) :
    (resizing env config r1 (World.start c0)).trace.countP Event.isFetch = 1 ∧
    (resizing env config r2
      (World.start (resizing env config r1 (World.start c0)).cache)).trace.countP
        Event.isFetch = 0 ∧
    (config.Cachethumbnails = true →
      requestSize env config r2 = requestSize env config r1 →
      resizing env config r2 (World.start (resizing env config r1 (World.start c0)).cache) =
        { cache := (env.cacheProvider.Get (resizing env config r1 (World.start c0)).cache
            (requestKey env config r1)).2,
          trace := [Event.Contains (requestKey env config r1),
            Event.Get (requestKey env config r1),
            Event.jpegEncode Target.response
              (env.cacheProvider.Get (resizing env config r1 (World.start c0)).cache
                (requestKey env config r1)).1.1],
          body := (env.jpegEncode
            (env.cacheProvider.Get (resizing env config r1 (World.start c0)).cache
              (requestKey env config r1)).1.1).1 }) := by
  have hr := acquire_ok env config r1 _ _ _ hacq
  have hch : a.cachedHit = false := by
    rw [hr.cachedHit_eq]; exact hempty _
  have hc1 : w1.cache = c0 := (hr.miss hch).2.2.2
  have hc2 : w2.cache = c0 := by
    rw [(resizeImage_ok env a.size a.finalImage imageResized w1 w2 hresize).1]
    exact hc1
  have hrun1 := resizing_of_stored env config r1 c0 a imageResized w1 w2 w3 hacq hresize hstore
  have hcache : (resizing env config r1 (World.start c0)).cache = w3.cache := by
    rw [hrun1]; exact (deliver_trace _ _ _ _).2
  have hst := storeToCache_ok env config a imageResized _ _ hstore
  simp only [hc2, hch] at hst
  obtain ⟨hs1, hs2, -, hs4⟩ := hst
  simp only [originalStored, hch, Bool.false_or, Option.isNone_iff_eq_none] at hs2
  simp only [beq_self_eq_true, if_true] at hs4
  have hO : env.cacheProvider.Contains w3.cache a.originalImageKey = true := by
    rw [hs4]; exact (hSet _ _ _ hs2).1
  have hK : config.Cachethumbnails = true →
      env.cacheProvider.Contains w3.cache a.key = true := by
    intro hct
    rw [hs4]
    apply (hSet _ _ _ hs2).2
    simp only [resizedStored, hct, Bool.not_true, Bool.false_or,
      Option.isNone_iff_eq_none] at hs1
    simp only [cacheAfterResized, hct, if_true]
    exact (hSet _ _ _ hs1).1
  have hurl : requestUrl config r2 = requestUrl config r1 := by
    simp [requestUrl, hpath]
  have hokey : requestOriginalKey env config r2 = a.originalImageKey := by
    rw [hr.originalKey_eq]; simp [requestOriginalKey, hurl]
  refine ⟨?_, ?_, ?_⟩
  · rw [resizing_countP_isFetch env config r1 c0 a w1 hacq, hch]; rfl
  · rw [hcache]
    by_cases hfast : (config.Cachethumbnails &&
        env.cacheProvider.Contains w3.cache (requestKey env config r2)) = true
    · simp only [Bool.and_eq_true] at hfast
      rw [resizing_of_resizedHit env config r2 w3.cache hvalid2 hfast.1 hfast.2]
      simp [Event.isFetch]
    · simp only [Bool.not_eq_true] at hfast
      obtain ⟨a2, v1, hacq2⟩ := acquire_hit env config r2 w3.cache hvalid2 hfast
        (by rw [hokey]; exact hO)
      have hr2 := acquire_ok env config r2 _ _ _ hacq2
      have hch2 : a2.cachedHit = true := by
        rw [hr2.cachedHit_eq, hr2.originalKey_eq, hokey]; exact hO
      rw [resizing_countP_isFetch env config r2 w3.cache a2 v1 hacq2, hch2]; rfl
  · intro hct hsize
    rw [hcache]
    have hkey : requestKey env config r2 = requestKey env config r1 := by
      simp [requestKey, hurl, hsize]
    have := resizing_of_resizedHit env config r2 w3.cache hvalid2 hct
      (by rw [hkey, ← hr.key_eq]; exact hK hct)
    rw [hkey] at this
    exact this

/-- The second request of C2 on the example collaborators: one fetch, then none. -/
theorem C2_second_request_no_fetch_witness :
    (resizing (exampleEnv false false) (exampleConfig true) exampleRequest
      (World.start [])).trace.countP Event.isFetch = 1 ∧
    (resizing (exampleEnv false false) (exampleConfig true)
      { size := "0x100", path := "/foo.jpg" }
      (World.start (resizing (exampleEnv false false) (exampleConfig true) exampleRequest
        (World.start [])).cache)).trace.countP Event.isFetch = 0 :=
  have h := C2_second_request_no_fetch (exampleEnv false false) (exampleConfig true)
    exampleRequest { size := "0x100", path := "/foo.jpg" } []
    (exampleAcquired "/foo.jpg" "image/jpeg" [1, 2, 3]) [200, 100, 1, 2, 3]
    (exampleAcquiredWorld "/foo.jpg" [1, 2, 3])
    (exampleResizedWorld "/foo.jpg" [1, 2, 3] 500 1000)
    (exampleStoredWorld "/foo.jpg" [1, 2, 3] 500 1000)
    (exampleProvider_set false) (fun _ => rfl) rfl (by decide) rfl rfl rfl
  ⟨h.1, h.2.1⟩

/-- C3: on the fetch path (validated request, original key absent, upstream status 200), bytes
that fail `image.Decode` make the handler call `Delete` on the original-image key and then on
the resized-variant key before `FormatError`; there is no resize and no `Set`; and with a
provider whose `Delete` removes the key and adds none, `Contains` is false for both keys in
the final provider state. -/
theorem C3_decode_failure_invalidates (env : Collaborators σ Img) (config : Configuration)
    (r : Request) (c : σ) (resp : Response) (err : String)
    (hvalid : env.CheckRequestNewSize config (requestSize env config r) = none)
    (hmiss : (config.Cachethumbnails &&
      env.cacheProvider.Contains c (requestKey env config r)) = false)
    (hmissO : env.cacheProvider.Contains c (requestOriginalKey env config r) = false)
    (hget : env.httpGet (requestUrl config r) = Except.ok resp)
    (hstatus : resp.StatusCode = 200)
    (hdecode : env.Decode resp.Body = Except.error err) :
    resizing env config r (World.start c) =
      { cache := (env.cacheProvider.Delete
          (env.cacheProvider.Delete c (requestOriginalKey env config r)).2
          (requestKey env config r)).2,
        trace := (if config.Cachethumbnails then [Event.Contains (requestKey env config r)]
            else []) ++
          [Event.Contains (requestOriginalKey env config r), Event.logDownloading,
            Event.httpGet (requestUrl config r), Event.Decode resp.Body,
            Event.Delete (requestOriginalKey env config r),
            Event.Delete (requestKey env config r),
            Event.logDecodeError, Event.FormatError err],
        body := [] } ∧
    (∀ e ∈ (resizing env config r (World.start c)).trace,
      e.isAspect = false ∧ e.isResize = false ∧ e.isEncode = false ∧
      ∀ k, e.isSet k = false) ∧
    ((∀ s k, env.cacheProvider.Contains (env.cacheProvider.Delete s k).2 k = false) →
      (∀ s k k1, env.cacheProvider.Contains s k1 = false →
        env.cacheProvider.Contains (env.cacheProvider.Delete s k).2 k1 = false) →
      env.cacheProvider.Contains (resizing env config r (World.start c)).cache
        (requestOriginalKey env config r) = false ∧
      env.cacheProvider.Contains (resizing env config r (World.start c)).cache
        (requestKey env config r) = false) := by
  have hrun : resizing env config r (World.start c) =
      { cache := (env.cacheProvider.Delete
          (env.cacheProvider.Delete c (requestOriginalKey env config r)).2
          (requestKey env config r)).2,
        trace := (if config.Cachethumbnails then [Event.Contains (requestKey env config r)]
            else []) ++
          [Event.Contains (requestOriginalKey env config r), Event.logDownloading,
            Event.httpGet (requestUrl config r), Event.Decode resp.Body,
            Event.Delete (requestOriginalKey env config r),
            Event.Delete (requestKey env config r),
            Event.logDecodeError, Event.FormatError err],
        body := [] } := by
    simp only [requestKey, requestOriginalKey, requestSize, requestUrl] at hvalid hmiss hmissO hget ⊢
    cases hc : config.Cachethumbnails with
    | false =>
      simp [resizing, acquire, resizedHit, download, statusCheck, obtainImage, hvalid, hc,
        hmissO, hget, hstatus, hdecode, World.start, World.emit, World.setCache]
    | true =>
      simp only [hc, Bool.true_and] at hmiss
      simp [resizing, acquire, resizedHit, download, statusCheck, obtainImage, hvalid, hc,
        hmiss, hmissO, hget, hstatus, hdecode, World.start, World.emit, World.setCache]
  refine ⟨hrun, ?_, ?_⟩
  · rw [hrun]
    cases hc : config.Cachethumbnails <;>
      simp [Event.isAspect, Event.isResize, Event.isEncode, Event.isSet]
  · intro hdel hframe
    rw [hrun]
    exact ⟨hframe _ _ _ (hdel _ _), hdel _ _⟩

/-- The decode failure of C3 on the example collaborators (`/bad.jpg`), `Cachethumbnails`
off and a stale resized variant in the cache: it is deleted. -/
theorem C3_decode_failure_invalidates_witness :
    resizing (exampleEnv false false) (exampleConfig false)
        { size := "200x200", path := "/bad.jpg" }
        (World.start [("200_200_http://img/bad.jpg", [7])]) =
      { cache := [],
        trace := [Event.Contains "original_http://img/bad.jpg", Event.logDownloading,
          Event.httpGet "http://img/bad.jpg", Event.Decode [],
          Event.Delete "original_http://img/bad.jpg",
          Event.Delete "200_200_http://img/bad.jpg",
          Event.logDecodeError, Event.FormatError "image: unknown format"],
        body := [] } ∧
    (exampleProvider false false).Contains
      (resizing (exampleEnv false false) (exampleConfig false)
        { size := "200x200", path := "/bad.jpg" }
        (World.start [("200_200_http://img/bad.jpg", [7])])).cache
      "200_200_http://img/bad.jpg" = false :=
  have h := C3_decode_failure_invalidates (exampleEnv false false) (exampleConfig false)
    { size := "200x200", path := "/bad.jpg" } [("200_200_http://img/bad.jpg", [7])]
    { StatusCode := 200, Header := [("Content-Type", "image/jpeg")], Body := [] }
    "image: unknown format" (by decide) (by decide) (by decide) rfl rfl rfl
  ⟨h.1, (h.2.2 (exampleProvider_delete false false).1 (exampleProvider_delete false false).2).2⟩

/-- C4 (as stated) fails: with `Cachethumbnails` on and a provider whose `Set` reports an
error, the example request reaches the cache-population step without error and is not an
original-cache-hit, yet `Set` is never called on the original-image key. -/
theorem C4_counterexample :
    ∃ a w1 imageResized w2,
      acquire (exampleEnv false true) (exampleConfig true) exampleRequest
        (World.start []) = Except.ok (a, w1) ∧
      resizeImage (exampleEnv false true) a.size a.finalImage w1 =
        Except.ok (imageResized, w2) ∧
      a.cachedHit = false ∧
      (resizing (exampleEnv false true) (exampleConfig true) exampleRequest
        (World.start [])).trace.any (Event.isSet a.originalImageKey) = false :=
  ⟨exampleAcquired "/foo.jpg" "image/jpeg" [1, 2, 3], exampleAcquiredWorld "/foo.jpg" [1, 2, 3],
    [200, 100, 1, 2, 3], exampleResizedWorld "/foo.jpg" [1, 2, 3] 500 1000,
    rfl, rfl, rfl, by decide⟩

/-- C4 (as amended): on a request that reaches the cache-population step, `Set` is called on
the resized-variant key exactly when `Cachethumbnails` is on, and `Set` is called on the
original-image key exactly when the request was not an original-cache-hit and the `Set` of
the resized-variant key, if there was one, reported no error. -/
theorem C4_cache_population (env : Collaborators σ Img) (config : Configuration)
    (r : Request) (c : σ) (a : Acquired Img) (imageResized : Img) (w1 w2 : World σ Img)
    (hacq : acquire env config r (World.start c) = Except.ok (a, w1))
    (hresize : resizeImage env a.size a.finalImage w1 = Except.ok (imageResized, w2)) :
    a.key = requestKey env config r ∧
    a.originalImageKey = requestOriginalKey env config r ∧
    a.cachedHit = env.cacheProvider.Contains c (requestOriginalKey env config r) ∧
    ((resizing env config r (World.start c)).trace.any (Event.isSet a.key) = true ↔
      config.Cachethumbnails = true) ∧
    ((resizing env config r (World.start c)).trace.any (Event.isSet a.originalImageKey) = true ↔
      (a.cachedHit = false ∧
        (config.Cachethumbnails = true →
          (env.cacheProvider.Set c a.key (env.jpegEncode imageResized).1).1 = none))) := by
  have hr := acquire_ok env config r _ _ _ hacq
  have ht := resizing_trace env config r c a imageResized w1 w2 hacq hresize
  have hne : (a.key == a.originalImageKey) = false := by
    rw [hr.key_eq, hr.originalKey_eq]
    simp [requestKey, requestOriginalKey, resizedKey_ne_originalKey]
  have hne2 : (a.originalImageKey == a.key) = false := by
    rw [hr.key_eq, hr.originalKey_eq]
    simp only [requestKey, requestOriginalKey, beq_eq_false_iff_ne, ne_eq]
    exact fun h => resizedKey_ne_originalKey _ _ _ h.symm
  have hany : ∀ k, (resizing env config r (World.start c)).trace.any (Event.isSet k) =
      ((config.Cachethumbnails && a.key == k) ||
        (resizedStored env config a imageResized w1.cache &&
          (!a.cachedHit && a.originalImageKey == k))) := by
    intro k
    rw [ht, List.any_append, List.any_append,
      any_isSet_of_isPre k _ (acquireEvents_isPre env config r c a),
      resizeEvents_any_isSet, postEvents_any_isSet]
    simp
  refine ⟨hr.key_eq, hr.originalKey_eq, ?_, ?_, ?_⟩
  · rw [hr.cachedHit_eq, hr.originalKey_eq]; rfl
  · rw [hany, hne2]
    simp
  · rw [hany, hne]
    cases hch : a.cachedHit with
    | true => simp
    | false =>
      have hc : w1.cache = c := (hr.miss hch).2.2.2
      rw [hc]
      unfold resizedStored
      cases hct : config.Cachethumbnails <;> simp [Option.isNone_iff_eq_none]

/-- The cache population of C4 (as amended) on the example collaborators: both keys are
`Set`. -/
theorem C4_cache_population_witness :
    (resizing (exampleEnv false false) (exampleConfig true) exampleRequest
      (World.start [])).trace.any (Event.isSet "200_200_http://img/foo.jpg") = true ∧
    (resizing (exampleEnv false false) (exampleConfig true) exampleRequest
      (World.start [])).trace.any (Event.isSet "original_http://img/foo.jpg") = true :=
  have h := C4_cache_population (exampleEnv false false) (exampleConfig true) exampleRequest []
    (exampleAcquired "/foo.jpg" "image/jpeg" [1, 2, 3]) [200, 100, 1, 2, 3]
    (exampleAcquiredWorld "/foo.jpg" [1, 2, 3])
    (exampleResizedWorld "/foo.jpg" [1, 2, 3] 500 1000) rfl rfl
  ⟨h.2.2.2.1.mpr rfl, h.2.2.2.2.mpr ⟨rfl, fun _ => rfl⟩⟩

/-- C5 (what the code does): the cached original is present but `Get` reports an error; the
handler logs it and goes on: no `Delete`, no error response; the value `Get` returned is
resized, its JPEG encoding is stored under the resized-variant key and sent as the
response. -/
theorem C5_cached_original_error_not_handled :
    resizing (exampleEnv true false) (exampleConfig true)
        { size := "0x100", path := "/foo.jpg" }
        (World.start [("original_http://img/foo.jpg", [1, 2, 3])]) =
      { cache := [("100_0_http://img/foo.jpg", [0, 100]),
          ("original_http://img/foo.jpg", [1, 2, 3])],
        trace := [Event.Contains "100_0_http://img/foo.jpg",
          Event.Contains "original_http://img/foo.jpg",
          Event.Get "original_http://img/foo.jpg", Event.logReadError "corrupt entry",
          Event.Resize 0 100 [] InterpolationFunction.NearestNeighbor,
          Event.jpegEncode Target.buffer [0, 100],
          Event.Set "100_0_http://img/foo.jpg" [0, 100],
          Event.jpegEncode Target.response [0, 100], Event.logHandled "image/jpeg",
          Event.FreeOSMemory],
        body := [0, 100] } := by
  decide

/-- C6: a request whose size fails `CheckRequestNewSize` only gets the formatted error: the
provider state is untouched and no call is made to the provider, the HTTP client or the
resize primitive; so any run that does make such a call has passed size validation. -/
theorem C6_invalid_size_rejected_first (env : Collaborators σ Img) (config : Configuration)
    (r : Request) (c : σ) :
    (∀ err, env.CheckRequestNewSize config (requestSize env config r) = some err →
      resizing env config r (World.start c) =
        { cache := c, trace := [Event.FormatError err], body := [] }) ∧
    (∀ e ∈ (resizing env config r (World.start c)).trace,
      (e.isCacheOp = true ∨ e.isFetch = true ∨ e.isAspect = true ∨ e.isResize = true) →
        env.CheckRequestNewSize config (requestSize env config r) = none) := by
  have h1 : ∀ err, env.CheckRequestNewSize config (requestSize env config r) = some err →
      resizing env config r (World.start c) =
        { cache := c, trace := [Event.FormatError err], body := [] } := by
    intro err herr
    simp only [requestSize] at herr
    simp [resizing, acquire, herr, World.start, World.emit]
  refine ⟨h1, ?_⟩
  intro e he hcall
  cases hv : env.CheckRequestNewSize config (requestSize env config r) with
  | none => rfl
  | some err =>
    rw [h1 err hv] at he
    simp only [List.mem_singleton] at he
    subst he
    simp [Event.isCacheOp, Event.isFetch, Event.isAspect, Event.isResize] at hcall

/-- The rejected size of C6 on the example collaborators. -/
theorem C6_invalid_size_rejected_first_witness :
    resizing (exampleEnv false false) (exampleConfig true)
        { size := "9999x9999", path := "/foo.jpg" } (World.start []) =
      { cache := [], trace := [Event.FormatError "size too big"], body := [] } :=
  (C6_invalid_size_rejected_first (exampleEnv false false) (exampleConfig true)
    { size := "9999x9999", path := "/foo.jpg" } []).1 "size too big" (by decide)

/-- C7: a validated request that misses the resized-variant key and the original-image key
ends with `FormatError(err)` when `httpClient.Get` fails and with `http.NotFound` when the
upstream status is not 200; the provider state is untouched and in both cases there is no
decode, no resize, no encode, no `Set` and no `Delete`. -/
theorem C7_fetch_failure_stops (env : Collaborators σ Img) (config : Configuration)
    (r : Request) (c : σ)
    (hvalid : env.CheckRequestNewSize config (requestSize env config r) = none)
    (hmiss : (config.Cachethumbnails &&
      env.cacheProvider.Contains c (requestKey env config r)) = false)
    (hmissO : env.cacheProvider.Contains c (requestOriginalKey env config r) = false) :
    (∀ err, env.httpGet (requestUrl config r) = Except.error err →
      resizing env config r (World.start c) =
        { cache := c,
          trace := (if config.Cachethumbnails then [Event.Contains (requestKey env config r)]
              else []) ++
            [Event.Contains (requestOriginalKey env config r), Event.logDownloading,
              Event.httpGet (requestUrl config r), Event.FormatError err],
          body := [] }) ∧
    (∀ resp, env.httpGet (requestUrl config r) = Except.ok resp → resp.StatusCode ≠ 200 →
      resizing env config r (World.start c) =
        { cache := c,
          trace := (if config.Cachethumbnails then [Event.Contains (requestKey env config r)]
              else []) ++
            [Event.Contains (requestOriginalKey env config r), Event.logDownloading,
              Event.httpGet (requestUrl config r), Event.NotFound],
          body := [] }) ∧
    (((∃ err, env.httpGet (requestUrl config r) = Except.error err) ∨
        (∃ resp, env.httpGet (requestUrl config r) = Except.ok resp ∧ resp.StatusCode ≠ 200)) →
      ∀ e ∈ (resizing env config r (World.start c)).trace,
        e.isDecode = false ∧ e.isAspect = false ∧ e.isResize = false ∧ e.isEncode = false ∧
        e.isCacheWrite = false) := by
  have h1 : ∀ err, env.httpGet (requestUrl config r) = Except.error err →
      resizing env config r (World.start c) =
        { cache := c,
          trace := (if config.Cachethumbnails then [Event.Contains (requestKey env config r)]
              else []) ++
            [Event.Contains (requestOriginalKey env config r), Event.logDownloading,
              Event.httpGet (requestUrl config r), Event.FormatError err],
          body := [] } := by
    intro err herr
    simp only [requestKey, requestOriginalKey, requestSize, requestUrl] at hvalid hmiss hmissO herr ⊢
    cases hc : config.Cachethumbnails with
    | false =>
      simp [resizing, acquire, resizedHit, download, hvalid, hc, hmissO, herr, World.start,
        World.emit]
    | true =>
      simp only [hc, Bool.true_and] at hmiss
      simp [resizing, acquire, resizedHit, download, hvalid, hc, hmiss, hmissO, herr,
        World.start, World.emit]
  have h2 : ∀ resp, env.httpGet (requestUrl config r) = Except.ok resp →
      resp.StatusCode ≠ 200 →
      resizing env config r (World.start c) =
        { cache := c,
          trace := (if config.Cachethumbnails then [Event.Contains (requestKey env config r)]
              else []) ++
            [Event.Contains (requestOriginalKey env config r), Event.logDownloading,
              Event.httpGet (requestUrl config r), Event.NotFound],
          body := [] } := by
    intro resp hresp hst
    simp only [requestKey, requestOriginalKey, requestSize, requestUrl] at hvalid hmiss hmissO hresp ⊢
    cases hc : config.Cachethumbnails with
    | false =>
      simp [resizing, acquire, resizedHit, download, statusCheck, hvalid, hc, hmissO, hresp,
        hst, World.start, World.emit]
    | true =>
      simp only [hc, Bool.true_and] at hmiss
      simp [resizing, acquire, resizedHit, download, statusCheck, hvalid, hc, hmiss, hmissO,
        hresp, hst, World.start, World.emit]
  refine ⟨h1, h2, ?_⟩
  intro hfail
  rcases hfail with ⟨err, herr⟩ | ⟨resp, hresp, hst⟩
  · rw [h1 err herr]
    cases hc : config.Cachethumbnails <;>
      simp [Event.isDecode, Event.isAspect, Event.isResize, Event.isEncode, Event.isCacheWrite]
  · rw [h2 resp hresp hst]
    cases hc : config.Cachethumbnails <;>
      simp [Event.isDecode, Event.isAspect, Event.isResize, Event.isEncode, Event.isCacheWrite]

/-- The two fetch failures of C7 on the example collaborators: an unknown host and a 404. -/
theorem C7_fetch_failure_stops_witness :
    resizing (exampleEnv false false) (exampleConfig true)
        { size := "200x200", path := "/nohost.jpg" } (World.start []) =
      { cache := [],
        trace := [Event.Contains "200_200_http://img/nohost.jpg",
          Event.Contains "original_http://img/nohost.jpg", Event.logDownloading,
          Event.httpGet "http://img/nohost.jpg", Event.FormatError "no such host"],
        body := [] } ∧
    resizing (exampleEnv false false) (exampleConfig true)
        { size := "200x200", path := "/gone.jpg" } (World.start []) =
      { cache := [],
        trace := [Event.Contains "200_200_http://img/gone.jpg",
          Event.Contains "original_http://img/gone.jpg", Event.logDownloading,
          Event.httpGet "http://img/gone.jpg", Event.NotFound],
        body := [] } :=
  ⟨(C7_fetch_failure_stops (exampleEnv false false) (exampleConfig true)
      { size := "200x200", path := "/nohost.jpg" } [] (by decide) (by decide) (by decide)).1
      "no such host" rfl,
    (C7_fetch_failure_stops (exampleEnv false false) (exampleConfig true)
      { size := "200x200", path := "/gone.jpg" } [] (by decide) (by decide) (by decide)).2.1
      { StatusCode := 404, Header := [], Body := [] } rfl (by decide)⟩

/-- C8: on a request that reaches the respond step, the content type is `image/jpeg` on an
original-cache-hit and otherwise the value of the `Content-Type` header of the upstream
response (empty when there is none), and it alone selects the body: the PNG encoding of the
resized image for `image/png`, its JPEG encoding for `image/jpeg` and for
`binary/octet-stream`, and no body for any other content type. -/
theorem C8_content_type_selects_encoding (env : Collaborators σ Img) (config : Configuration)
    (r : Request) (c : σ) (a : Acquired Img) (imageResized : Img) (w1 w2 w3 : World σ Img)
    (hacq : acquire env config r (World.start c) = Except.ok (a, w1))
    (hresize : resizeImage env a.size a.finalImage w1 = Except.ok (imageResized, w2))
    (hstore : storeToCache env config a.key a.originalImageKey a.finalImage imageResized
      a.cachedHit w2 = Except.ok w3) :
    a.cachedHit = env.cacheProvider.Contains c (requestOriginalKey env config r) ∧
    (a.cachedHit = false → env.httpGet (requestUrl config r) = Except.ok a.imageBuffer) ∧
    (∃ sw sh, imageResized =
      env.Resize sw sh a.finalImage InterpolationFunction.NearestNeighbor) ∧
    w3.body = [] ∧
    (resizing env config r (World.start c)).cache = w3.cache ∧
    ∀ contentType : String,
      contentType = (if a.cachedHit = true then "image/jpeg"
        else match a.imageBuffer.Header.lookup "Content-Type" with
          | some v => v
          | none => "") →
      (contentType = "image/png" →
        (resizing env config r (World.start c)).body = (env.pngEncode imageResized).1 ∧
        (resizing env config r (World.start c)).trace = w3.trace ++
          [Event.pngEncode imageResized, Event.logHandled "image/png", Event.FreeOSMemory]) ∧
      (contentType = "image/jpeg" ∨ contentType = "binary/octet-stream" →
        (resizing env config r (World.start c)).body = (env.jpegEncode imageResized).1 ∧
        (resizing env config r (World.start c)).trace = w3.trace ++
          [Event.jpegEncode Target.response imageResized, Event.logHandled contentType,
            Event.FreeOSMemory]) ∧
      (contentType ≠ "image/png" → contentType ≠ "image/jpeg" →
        contentType ≠ "binary/octet-stream" →
        (resizing env config r (World.start c)).body = [] ∧
        (resizing env config r (World.start c)).trace = w3.trace ++
          [Event.logCannotHandle contentType, Event.FreeOSMemory]) := by
  have hr := acquire_ok env config r _ _ _ hacq
  have hrun := resizing_of_stored env config r c a imageResized w1 w2 w3 hacq hresize hstore
  have hst := storeToCache_ok env config a imageResized _ _ hstore
  have hro := resizeImage_ok env a.size a.finalImage imageResized w1 w2 hresize
  have hbody : w3.body = [] := by
    rw [hst.2.2.1, hro.1]
    simp only
    rw [hr.body_eq]
    rfl
  refine ⟨?_, fun h => (hr.miss h).1, ?_, hbody, ?_, ?_⟩
  · rw [hr.cachedHit_eq, hr.originalKey_eq]; rfl
  · by_cases hc : (decide (a.size.Width > 0) && decide (a.size.Height > 0)) = true
    · obtain ⟨b, _, hb⟩ := hro.2.1 hc
      exact ⟨_, _, hb⟩
    · simp only [Bool.not_eq_true] at hc
      exact ⟨_, _, hro.2.2 hc⟩
  · rw [hrun]; exact (deliver_trace _ _ _ _).2
  · intro contentType hct
    rw [← resolveContentType_eq] at hct
    rw [hrun, ← hct]
    refine ⟨?_, ?_, ?_⟩
    · intro h1
      rw [h1]
      simp [deliver, World.emit, World.pngEncodeW, hbody]
    · intro h1
      rcases h1 with h1 | h1 <;> rw [h1] <;>
        simp [deliver, World.emit, World.jpegEncodeW, hbody]
    · intro h1 h2 h3
      simp [deliver, World.emit, h1, h2, h3, hbody]

/-- The respond step of C8 on the example collaborators: a PNG upstream is answered with the
PNG encoding, a GIF upstream with no body, a JPEG upstream with the JPEG encoding, and an
original-cache-hit with the JPEG encoding. -/
theorem C8_content_type_selects_encoding_witness :
    (resizing (exampleEnv false false) (exampleConfig false)
      { size := "0x100", path := "/foo.jpg" }
      (World.start [("original_http://img/foo.jpg", [1, 2, 3])])).body =
        [0, 100, 1, 2, 3] ∧
    (resizing (exampleEnv false false) (exampleConfig true)
      { size := "200x200", path := "/foo.png" } (World.start [])).body =
        [0, 200, 100, 4, 5, 6] ∧
    (resizing (exampleEnv false false) (exampleConfig true)
      { size := "200x200", path := "/foo.gif" } (World.start [])).body = [] ∧
    (resizing (exampleEnv false false) (exampleConfig true) exampleRequest
      (World.start [])).body = [200, 100, 1, 2, 3] :=
  ⟨(((C8_content_type_selects_encoding (exampleEnv false false) (exampleConfig false)
      { size := "0x100", path := "/foo.jpg" } [("original_http://img/foo.jpg", [1, 2, 3])]
      exampleAcquiredHit [0, 100, 1, 2, 3] exampleAcquiredHitWorld exampleResizedHitWorld
      exampleResizedHitWorld rfl rfl rfl).2.2.2.2.2
      "image/jpeg" rfl).2.1 (Or.inl rfl)).1,
    (((C8_content_type_selects_encoding (exampleEnv false false) (exampleConfig true)
      { size := "200x200", path := "/foo.png" } []
      (exampleAcquired "/foo.png" "image/png" [4, 5, 6]) [200, 100, 4, 5, 6]
      (exampleAcquiredWorld "/foo.png" [4, 5, 6])
      (exampleResizedWorld "/foo.png" [4, 5, 6] 500 1000)
      (exampleStoredWorld "/foo.png" [4, 5, 6] 500 1000) rfl rfl rfl).2.2.2.2.2
      "image/png" rfl).1 rfl).1,
    (((C8_content_type_selects_encoding (exampleEnv false false) (exampleConfig true)
      { size := "200x200", path := "/foo.gif" } []
      (exampleAcquired "/foo.gif" "image/gif" [4, 5, 6]) [200, 100, 4, 5, 6]
      (exampleAcquiredWorld "/foo.gif" [4, 5, 6])
      (exampleResizedWorld "/foo.gif" [4, 5, 6] 500 1000)
      (exampleStoredWorld "/foo.gif" [4, 5, 6] 500 1000) rfl rfl rfl).2.2.2.2.2
      "image/gif" rfl).2.2 (by decide) (by decide) (by decide)).1,
    (((C8_content_type_selects_encoding (exampleEnv false false) (exampleConfig true)
      exampleRequest []
      (exampleAcquired "/foo.jpg" "image/jpeg" [1, 2, 3]) [200, 100, 1, 2, 3]
      (exampleAcquiredWorld "/foo.jpg" [1, 2, 3])
      (exampleResizedWorld "/foo.jpg" [1, 2, 3] 500 1000)
      (exampleStoredWorld "/foo.jpg" [1, 2, 3] 500 1000) rfl rfl rfl).2.2.2.2.2
      "image/jpeg" rfl).2.1 (Or.inl rfl)).1⟩

/-- C9: the key derivation of lines 67 and 76 is injective on each namespace, and no
resized-variant key equals an original-image key. -/
theorem C9_cache_keys_injective_and_disjoint :
    (∀ (s1 s2 : Size) (i1 i2 : String),
      resizedKey s1 i1 = resizedKey s2 i2 → s1 = s2 ∧ i1 = i2) ∧
    (∀ i1 i2 : String, originalKey i1 = originalKey i2 → i1 = i2) ∧
    (∀ (s : Size) (i j : String), resizedKey s i ≠ originalKey j) ∧
    resizedKey { Width := 200, Height := 100 } "a_1.jpg" = "100_200_a_1.jpg" ∧
    originalKey "a_1.jpg" = "original_a_1.jpg" :=
  ⟨resizedKey_inj, originalKey_inj, resizedKey_ne_originalKey, by decide, by decide⟩

/-- Two keys of C9 whose texts only differ in where the digits and underscores fall. -/
theorem C9_cache_keys_injective_and_disjoint_witness :
    resizedKey { Width := 23, Height := 1 } "4_x" ≠
      resizedKey { Width := 2, Height := 1 } "3_4_x" :=
  fun h => absurd (C9_cache_keys_injective_and_disjoint.1 _ _ _ _ h).1 (by decide)

/-- C10 (as stated) fails.  For `/crop.jpg`, whose bounds run from `(10, 20)` to
`(1010, 520)`, the calculator is given `520` and `1010` although the image is `500` high and
`1000` wide.  And when the cached original is present but `Get` reports an error and hands
back a nil image, the request reaches the resize step with both dimensions positive, yet
neither the calculator nor the resize primitive is called: `Bounds()` panics. -/
theorem C10_counterexample :
    (∃ a w1 b,
      acquire (exampleEnv false false) (exampleConfig true)
        { size := "200x200", path := "/crop.jpg" } (World.start []) = Except.ok (a, w1) ∧
      (exampleEnv false false).Bounds a.finalImage = some b ∧ b.Dy = 500 ∧ b.Dx = 1000 ∧
      Event.calculateAspectRatio a.size 520 1010 ∈
        (resizing (exampleEnv false false) (exampleConfig true)
          { size := "200x200", path := "/crop.jpg" } (World.start [])).trace ∧
      Event.calculateAspectRatio a.size 500 1000 ∉
        (resizing (exampleEnv false false) (exampleConfig true)
          { size := "200x200", path := "/crop.jpg" } (World.start [])).trace) ∧
    (∃ a w1,
      acquire (exampleEnv true false) (exampleConfig true) exampleRequest
        (World.start [("original_http://img/foo.jpg", [1, 2, 3])]) = Except.ok (a, w1) ∧
      0 < a.size.Width ∧ 0 < a.size.Height ∧
      (resizing (exampleEnv true false) (exampleConfig true) exampleRequest
        (World.start [("original_http://img/foo.jpg", [1, 2, 3])])).trace.any
          Event.isAspect = false ∧
      (resizing (exampleEnv true false) (exampleConfig true) exampleRequest
        (World.start [("original_http://img/foo.jpg", [1, 2, 3])])).trace.any
          Event.isResize = false) :=
  ⟨⟨exampleAcquired "/crop.jpg" "image/jpeg" [7, 7], exampleAcquiredWorld "/crop.jpg" [7, 7],
      { Min := { X := 10, Y := 20 }, Max := { X := 1010, Y := 520 } },
      rfl, rfl, by decide, by decide, by decide, by decide⟩,
    ⟨exampleAcquiredNil, exampleAcquiredNilWorld, rfl, by decide, by decide, by decide,
      by decide⟩⟩

/-- C10 (as amended): on a request that reaches the resize step and whose `Bounds()` call,
if any, returns, `calculateAspectRatio` is called exactly when the requested width and height
are both positive, with `Bounds().Max.Y` then `Bounds().Max.X` of the source image; the
`resize.Resize` calls are exactly the one on the source image with `NearestNeighbor`, on the
result of the calculator when it was called and on the requested `(Width, Height)` unchanged
when either is zero, and its result is the resized image. -/
theorem C10_aspect_then_nearest_neighbour (env : Collaborators σ Img)
    (config : Configuration) (r : Request) (c : σ) (a : Acquired Img) (imageResized : Img)
    (w1 w2 : World σ Img)
    (hacq : acquire env config r (World.start c) = Except.ok (a, w1))
    (hresize : resizeImage env a.size a.finalImage w1 = Except.ok (imageResized, w2)) :
    a.size = requestSize env config r ∧
    ((resizing env config r (World.start c)).trace.any Event.isAspect = true ↔
      (0 < a.size.Width ∧ 0 < a.size.Height)) ∧
    (∀ sz h w, Event.calculateAspectRatio sz h w ∈ (resizing env config r (World.start c)).trace →
      ∃ b, env.Bounds a.finalImage = some b ∧ sz = a.size ∧ h = b.Max.Y ∧ w = b.Max.X) ∧
    (∀ w h img i, Event.Resize w h img i ∈ (resizing env config r (World.start c)).trace ↔
      (img = a.finalImage ∧ i = InterpolationFunction.NearestNeighbor ∧
        imageResized = env.Resize w h a.finalImage InterpolationFunction.NearestNeighbor ∧
        ((0 < a.size.Width ∧ 0 < a.size.Height) →
          ∃ b, env.Bounds a.finalImage = some b ∧
            w = (env.calculateAspectRatio a.size b.Max.Y b.Max.X).Width ∧
            h = (env.calculateAspectRatio a.size b.Max.Y b.Max.X).Height) ∧
        ((a.size.Width = 0 ∨ a.size.Height = 0) →
          w = a.size.Width ∧ h = a.size.Height))) := by
  have hr := acquire_ok env config r _ _ _ hacq
  have ht := resizing_trace env config r c a imageResized w1 w2 hacq hresize
  have hpre := acquireEvents_isPre env config r c a
  have hpost := postEvents_isPost env config a imageResized w1.cache
  have hro := resizeImage_ok env a.size a.finalImage imageResized w1 w2 hresize
  have hmid : ∀ e, e ∈ (resizing env config r (World.start c)).trace →
      (e.isAspect = true ∨ e.isResize = true) → e ∈ resizeEvents env a.size a.finalImage := by
    intro e he hk
    rw [ht] at he
    simp only [List.mem_append] at he
    rcases he with he | he | he
    · have := hpre e he
      cases e <;> simp [Event.isPre, Event.isAspect, Event.isResize] at this hk
    · exact he
    · have := hpost e he
      cases e <;> simp [Event.isPost, Event.isAspect, Event.isResize] at this hk
  have hsub : ∀ e, e ∈ resizeEvents env a.size a.finalImage →
      e ∈ (resizing env config r (World.start c)).trace := by
    intro e he
    rw [ht]
    simp only [List.mem_append]
    exact Or.inr (Or.inl he)
  by_cases hc : (decide (a.size.Width > 0) && decide (a.size.Height > 0)) = true
  · have hpos : 0 < a.size.Width ∧ 0 < a.size.Height := by simpa using hc
    obtain ⟨b, hb, hir⟩ := hro.2.1 hc
    have hev : resizeEvents env a.size a.finalImage =
        [Event.calculateAspectRatio a.size b.Max.Y b.Max.X,
          Event.Resize (env.calculateAspectRatio a.size b.Max.Y b.Max.X).Width
            (env.calculateAspectRatio a.size b.Max.Y b.Max.X).Height
            a.finalImage InterpolationFunction.NearestNeighbor] := by
      unfold resizeEvents
      simp only [hc, hb, if_true]
    refine ⟨hr.size_eq, ?_, ?_, ?_⟩
    · constructor
      · intro _; exact hpos
      · intro _
        rw [List.any_eq_true]
        exact ⟨Event.calculateAspectRatio a.size b.Max.Y b.Max.X,
          hsub _ (by rw [hev]; simp), rfl⟩
    · intro sz h w hmem
      have := hmid _ hmem (Or.inl rfl)
      rw [hev] at this
      simp at this
      exact ⟨b, hb, this⟩
    · intro w h img i
      constructor
      · intro hmem
        have := hmid _ hmem (Or.inr rfl)
        rw [hev] at this
        simp at this
        obtain ⟨h1, h2, h3, h4⟩ := this
        subst h1 h2 h3 h4
        exact ⟨rfl, rfl, hir, fun _ => ⟨b, hb, rfl, rfl⟩, fun hz => by omega⟩
      · rintro ⟨h1, h2, _, h4, _⟩
        obtain ⟨b2, hb2, hw, hh⟩ := h4 hpos
        rw [hb] at hb2
        cases hb2
        subst h1 h2 hw hh
        exact hsub _ (by rw [hev]; simp)
  · have hc2 : (decide (a.size.Width > 0) && decide (a.size.Height > 0)) = false := by
      simpa using hc
    have hzero : a.size.Width = 0 ∨ a.size.Height = 0 := by
      simp only [Bool.and_eq_true, decide_eq_true_eq, not_and] at hc
      omega
    have hir := hro.2.2 hc2
    have hev : resizeEvents env a.size a.finalImage =
        [Event.Resize a.size.Width a.size.Height a.finalImage
          InterpolationFunction.NearestNeighbor] := by
      unfold resizeEvents
      simp only [hc2, Bool.false_eq_true, if_false]
    refine ⟨hr.size_eq, ?_, ?_, ?_⟩
    · constructor
      · intro hany
        rw [List.any_eq_true] at hany
        obtain ⟨e, he, hp⟩ := hany
        have := hmid e he (Or.inl hp)
        rw [hev] at this
        simp at this
        subst this
        simp [Event.isAspect] at hp
      · intro hpos; omega
    · intro sz h w hmem
      have := hmid _ hmem (Or.inl rfl)
      rw [hev] at this
      simp at this
    · intro w h img i
      constructor
      · intro hmem
        have := hmid _ hmem (Or.inr rfl)
        rw [hev] at this
        simp at this
        obtain ⟨h1, h2, h3, h4⟩ := this
        subst h1 h2 h3 h4
        exact ⟨rfl, rfl, hir, fun hp => by omega, fun _ => ⟨rfl, rfl⟩⟩
      · rintro ⟨h1, h2, _, _, h5⟩
        obtain ⟨hw, hh⟩ := h5 hzero
        subst h1 h2 hw hh
        exact hsub _ (by rw [hev]; simp)

/-- The resize step of C10 (as amended) on the example collaborators: for `/crop.jpg` the
calculator is called with `Max.Y = 520` then `Max.X = 1010`. -/
theorem C10_aspect_then_nearest_neighbour_witness :
    (resizing (exampleEnv false false) (exampleConfig true)
      { size := "200x200", path := "/crop.jpg" } (World.start [])).trace.any
        Event.isAspect = true ∧
    Event.Resize 200 100 [7, 7] InterpolationFunction.NearestNeighbor ∈
      (resizing (exampleEnv false false) (exampleConfig true)
        { size := "200x200", path := "/crop.jpg" } (World.start [])).trace :=
  have h := C10_aspect_then_nearest_neighbour (exampleEnv false false) (exampleConfig true)
    { size := "200x200", path := "/crop.jpg" } []
    (exampleAcquired "/crop.jpg" "image/jpeg" [7, 7]) [200, 100, 7, 7]
    (exampleAcquiredWorld "/crop.jpg" [7, 7])
    (exampleResizedWorld "/crop.jpg" [7, 7] 520 1010) rfl rfl
  ⟨h.2.1.mpr ⟨by decide, by decide⟩,
    (h.2.2.2 200 100 [7, 7] InterpolationFunction.NearestNeighbor).mpr
      ⟨rfl, rfl, rfl,
        fun _ => ⟨{ Min := { X := 10, Y := 20 }, Max := { X := 1010, Y := 520 } }, rfl, rfl,
          rfl⟩,
        fun hz => by
          rcases hz with hz | hz <;> exact absurd hz (by decide)⟩⟩

end Resizer
